import Mathlib

/-!
# terminal-app.c: the application controller of the terminal emulator

A shallow embedding of `src/terminal/terminal-app.c`.

The file is glue between the toolkit and the message bus, so the embedding keeps
two things: the fields of `struct _TerminalApp` that the functions read and write
(the window registry and the server flag), and the ordered log of the calls the
functions make into code that lives outside the file.  Every function of the source
becomes a function on `World`; calls whose answer the source branches on are taken
from an explicit environment argument.

Conventions.
* Objects created by the toolkit or the bus library (windows, terminal widgets,
  reply messages) are handles.  An allocating call returns the handle `World.next`
  and advances it, so a created object differs from every object created before.
* A logged call has no effect on the registry by itself: toolkit callbacks are
  delivered from the main loop, as separate steps.
* `g_return_if_fail` is taken with checks compiled in: a failed check returns at once.
* Translated strings `_("...")` are written untranslated.
-/

namespace TerminalApp

/-- Object handle: a window, a terminal widget, a connection or a message. -/
abbrev Handle := Nat

/-- The type `TerminalTabAttr`: every field may be `NULL`. -/
structure TerminalTabAttr where
  command : Option (List String)
  directory : Option String
  title : Option String
deriving DecidableEq, Repr

/-- The type `TerminalWindowAttr`, with the fields `terminal_app_open_window` reads. -/
structure TerminalWindowAttr where
  menubar : Bool
  borders : Bool
  toolbars : Bool
  role : Option String
  startup_id : Option String
  geometry : Option String
  tabs : List TerminalTabAttr
deriving DecidableEq, Repr

/-- Message kinds of the bus library. -/
inductive DBusMessageType where
  | method_call
  | method_return
  | error
  | signal
deriving DecidableEq, Repr

/-- One argument of a bus message, as far as the handler tells them apart. -/
inductive DBusArg where
  | string_array (items : List String)
  | string (text : String)
  | other (code : Nat)
deriving DecidableEq, Repr

/-- A bus message: the header fields the library predicates look at, and the arguments. -/
structure DBusMessage where
  type : DBusMessageType
  destination : Option String
  path : Option String
  interface : Option String
  member : Option String
  error_name : Option String
  auto_activation : Bool
  args : List DBusArg
deriving DecidableEq, Repr

/-- Return codes of a message handler. -/
inductive DBusHandlerResult where
  | HANDLED
  | NOT_YET_HANDLED
deriving DecidableEq, Repr

/-- The constants of `terminal-config.h` and of the bus headers that the file names. -/
structure Config where
  TERMINAL_DBUS_SERVICE : String
  TERMINAL_DBUS_PATH : String
  TERMINAL_DBUS_INTERFACE : String
  TERMINAL_DBUS_METHOD_LAUNCH : String
  TERMINAL_DBUS_ERROR : String
  DBUS_INTERFACE_ORG_FREEDESKTOP_LOCAL : String
deriving DecidableEq, Repr

/-- Calls into code outside `terminal-app.c`, in the order they are made. -/
inductive Call where
  | terminal_window_new (menubar borders toolbars : Bool) (ret : Handle)
  | g_signal_connect (object : Handle) (signal : String)
  | gtk_window_set_role (window : Handle) (role : String)
  | terminal_window_set_startup_id (window : Handle) (id : String)
  | terminal_widget_new (ret : Handle)
  | terminal_widget_set_custom_command (terminal : Handle) (command : List String)
  | terminal_widget_set_working_directory (terminal : Handle) (directory : String)
  | terminal_widget_set_custom_title (terminal : Handle) (title : String)
  | terminal_window_add (window terminal : Handle)
  | gtk_window_parse_geometry (window : Handle) (geometry : String)
  | g_printerr (text : String)
  | gtk_widget_show (window : Handle)
  | terminal_widget_launch_child (terminal : Handle)
  | gtk_main_quit
  | terminal_window_attr_new
  | terminal_window_attr_free (attr : TerminalWindowAttr)
  | g_list_free
  | dbus_message_new_error (ret : Handle) (name text : String)
  | dbus_message_new_method_return (ret : Handle)
  | dbus_connection_send (connection message : Handle)
  | dbus_message_unref (message : Handle)
  | dbus_free_string_array (argv : List String)
  | dbus_connection_send_with_reply_and_block (connection : Handle) (message : DBusMessage)
      (timeout_milliseconds : Int)
  | dbus_error_free
deriving DecidableEq, Repr

/-- The fields of `struct _TerminalApp` that the modelled functions use. -/
structure App where
  windows : List Handle
  server_running : Bool
deriving DecidableEq, Repr

/-- The application object, the handle allocator and the log of outside calls. -/
structure World where
  app : App
  next : Handle
  calls : List Call
deriving DecidableEq, Repr

/-- Log one outside call. -/
def emit (c : Call) (w : World) : World :=
  { w with calls := w.calls ++ [c] }

/-- Take the next unused handle. -/
def alloc (w : World) : Handle × World :=
  (w.next, { w with next := w.next + 1 })

/-- Replace the window registry `app->windows`. -/
def setWindows (ws : List Handle) (w : World) : World :=
  { w with app := { w.app with windows := ws } }

/-- Number of `gtk_main_quit` requests logged so far. -/
def quits (w : World) : Nat :=
  w.calls.count Call.gtk_main_quit

/-- The function `terminal_app_window_destroyed`: `g_list_remove` drops the first node
holding `window`; an empty registry asks the main loop to stop. -/
def terminal_app_window_destroyed (window : Handle) (w : World) : World :=
  if window ∈ w.app.windows then
    let w1 := setWindows (w.app.windows.erase window) w
    if w1.app.windows = [] then emit Call.gtk_main_quit w1 else w1
  else w

/-- Deliver the destroy notification for each handle of `order`, first to last. -/
def destroy_each (order : List Handle) (w : World) : World :=
  order.foldl (fun acc h => terminal_app_window_destroyed h acc) w

/-- Answers of the toolkit that the source branches on. -/
structure Toolkit where
  gtk_window_parse_geometry : Handle → String → Bool

/-- Log `f a` when the optional value is present: the `if (x != NULL) set (x)` idiom. -/
def emit_if_set {α : Type} (o : Option α) (f : α → Call) (w : World) : World :=
  match o with
  | some a => emit (f a) w
  | none => w

/-- The block under `if (lp == attr->tabs)`: parse the geometry when there is one, print the
diagnostic when parsing fails, then show the window. -/
def first_tab_shown (tk : Toolkit) (attr : TerminalWindowAttr) (window : Handle)
    (w : World) : World :=
  let w1 :=
    match attr.geometry with
    | none => w
    | some g =>
      let w0 := emit (Call.gtk_window_parse_geometry window g) w
      if tk.gtk_window_parse_geometry window g then w0
      else emit (Call.g_printerr ("Invalid geometry string \"" ++ g ++ "\"\n")) w0
  emit (Call.gtk_widget_show window) w1

/-- The tab loop of `terminal_app_open_window`.  `i` is the position of `lp` in
`attr->tabs`, so `lp == attr->tabs` is `i = 0`. -/
def open_tabs (tk : Toolkit) (attr : TerminalWindowAttr) (window : Handle) :
    Nat → List TerminalTabAttr → World → World
  | _, [], w => w
  | i, tab_attr :: rest, w =>
    let terminal := (alloc w).1
    let w1 := emit (Call.terminal_widget_new terminal) (alloc w).2
    let w2 := emit_if_set tab_attr.command (Call.terminal_widget_set_custom_command terminal) w1
    let w3 := emit_if_set tab_attr.directory
      (Call.terminal_widget_set_working_directory terminal) w2
    let w4 := emit_if_set tab_attr.title (Call.terminal_widget_set_custom_title terminal) w3
    let w5 := emit (Call.terminal_window_add window terminal) w4
    let w6 := if i = 0 then first_tab_shown tk attr window w5 else w5
    let w7 := emit (Call.terminal_widget_launch_child terminal) w6
    open_tabs tk attr window (i + 1) rest w7

/-- The function `terminal_app_open_window`.  The two `g_return_if_fail` checks hold by
typing: `app` is the application of the world and `attr` is a value. -/
def terminal_app_open_window (tk : Toolkit) (attr : TerminalWindowAttr) (w : World) : World :=
  let window := (alloc w).1
  let w1 := emit (Call.terminal_window_new attr.menubar attr.borders attr.toolbars window)
    (alloc w).2
  let w2 := emit (Call.g_signal_connect window "destroy") w1
  let w3 := emit (Call.g_signal_connect window "new-window") w2
  let w4 := setWindows (w3.app.windows ++ [window]) w3
  let w5 := emit_if_set attr.role (Call.gtk_window_set_role window) w4
  let w6 := emit_if_set attr.startup_id (Call.terminal_window_set_startup_id window) w5
  open_tabs tk attr window 0 attr.tabs w6

/-- The loop `for (lp = attrs; lp != NULL; lp = lp->next) terminal_app_open_window (...)`. -/
def open_windows (tk : Toolkit) : List TerminalWindowAttr → World → World
  | [], w => w
  | attr :: rest, w => open_windows tk rest (terminal_app_open_window tk attr w)

/-- The argument parser `terminal_options_parse`, which is not part of the file: either the
list of window attributes or the message of the error it sets. -/
abbrev Parser := List String → Except String (List TerminalWindowAttr)

/-- The function `terminal_app_process`: `Except.error` is a `FALSE` return with the parser's
error, in which case nothing was done. -/
def terminal_app_process (parse : Parser) (tk : Toolkit) (argv : List String) (w : World) :
    Except String World :=
  match parse argv with
  | Except.error e => Except.error e
  | Except.ok attrs =>
    let w1 := open_windows tk attrs w
    let w2 := { w1 with calls := w1.calls ++ attrs.map Call.terminal_window_attr_free }
    Except.ok (emit Call.g_list_free w2)

/-- Library predicate shared by `dbus_message_is_method_call` and `dbus_message_is_signal`:
the kind and the member match, and the interface matches when the message has one. -/
def has_type_interface_member (m : DBusMessage) (t : DBusMessageType)
    (interface member : String) : Bool :=
  decide (m.type = t) && decide (m.member = some member) &&
    (decide (m.interface = none) || decide (m.interface = some interface))

/-- Library predicate `dbus_message_is_method_call`. -/
def dbus_message_is_method_call (m : DBusMessage) (interface method : String) : Bool :=
  has_type_interface_member m DBusMessageType.method_call interface method

/-- Library predicate `dbus_message_is_signal`. -/
def dbus_message_is_signal (m : DBusMessage) (interface name : String) : Bool :=
  has_type_interface_member m DBusMessageType.signal interface name

/-- Library predicate `dbus_message_is_error`. -/
def dbus_message_is_error (m : DBusMessage) (name : String) : Bool :=
  decide (m.type = DBusMessageType.error) && decide (m.error_name = some name)

/-- Library call `dbus_message_iter_init`: false when the message has no arguments. -/
def dbus_message_iter_init (m : DBusMessage) : Bool :=
  !m.args.isEmpty

/-- Library call `dbus_message_iter_get_string_array` at the first argument. -/
def dbus_message_iter_get_string_array (m : DBusMessage) : Option (List String) :=
  match m.args with
  | DBusArg.string_array items :: _ => some items
  | _ => none

/-- The function `terminal_app_message`. -/
def terminal_app_message (cfg : Config) (parse : Parser) (tk : Toolkit)
    (connection : Handle) (message : DBusMessage) (w : World) : DBusHandlerResult × World :=
  if dbus_message_is_method_call message cfg.TERMINAL_DBUS_INTERFACE
      cfg.TERMINAL_DBUS_METHOD_LAUNCH then
    if !dbus_message_iter_init message then
      (DBusHandlerResult.NOT_YET_HANDLED, w)
    else
      match dbus_message_iter_get_string_array message with
      | none =>
        let reply := (alloc w).1
        let w1 := emit (Call.dbus_message_new_error reply cfg.TERMINAL_DBUS_ERROR
          "Invalid arguments") (alloc w).2
        let w2 := emit (Call.dbus_connection_send connection reply) w1
        let w3 := emit (Call.dbus_message_unref reply) w2
        (DBusHandlerResult.HANDLED, w3)
      | some argv =>
        let after :=
          match terminal_app_process parse tk argv w with
          | Except.error text =>
            let reply := (alloc w).1
            let w1 := emit (Call.dbus_message_new_error reply cfg.TERMINAL_DBUS_ERROR text)
              (alloc w).2
            let w2 := emit (Call.dbus_connection_send connection reply) w1
            (reply, emit (Call.dbus_message_unref reply) w2)
          | Except.ok wp =>
            let reply := (alloc wp).1
            let w1 := emit (Call.dbus_message_new_method_return reply) (alloc wp).2
            (reply, emit (Call.dbus_connection_send connection reply) w1)
        let w4 := emit (Call.dbus_free_string_array argv) after.2
        let w5 := emit (Call.dbus_message_unref after.1) w4
        (DBusHandlerResult.HANDLED, w5)
  else if dbus_message_is_signal message cfg.DBUS_INTERFACE_ORG_FREEDESKTOP_LOCAL
      "Disconnected" then
    let w1 := emit (Call.g_printerr "D-BUS message bus disconnected, exiting...\n") w
    (DBusHandlerResult.HANDLED, emit Call.gtk_main_quit w1)
  else
    (DBusHandlerResult.NOT_YET_HANDLED, w)

/-- Modelled from the spec: `terminal_window_attr_new` of `terminal-options.c`, which is not
among the sources.  The spec calls its result a fresh single-tab window attribute: the three
visibility flags are the defaults passed in, nothing else is set, and the tab list holds one
tab with no command, directory or title. -/
def terminal_window_attr_new (menubar borders toolbars : Bool) : TerminalWindowAttr :=
  { menubar := menubar, borders := borders, toolbars := toolbars,
    role := none, startup_id := none, geometry := none,
    tabs := [{ command := none, directory := none, title := none }] }

/-- The function `terminal_app_new_window`.  `created` is what `terminal_window_attr_new`
returned; `win_attr->tabs->data` of an empty tab list dereferences `NULL`, which is `none`.
`g_strdup` keeps `NULL`.  The requesting `window` is not used by the body. -/
def terminal_app_new_window (tk : Toolkit) (created : TerminalWindowAttr) (_window : Handle)
    (working_directory : Option String) (w : World) : Option World :=
  let w1 := emit Call.terminal_window_attr_new w
  match created.tabs with
  | [] => none
  | tab_attr :: rest =>
    let win_attr : TerminalWindowAttr :=
      { created with tabs := { tab_attr with directory := working_directory } :: rest }
    let w2 := terminal_app_open_window tk win_attr w1
    some (emit (Call.terminal_window_attr_free win_attr) w2)

/-- Answers of the bus library that the source branches on.  `dbus_bus_acquire_service`
gives its return value and the text left in `derror.message`;
`dbus_connection_send_with_reply_and_block` gives the reply, or the text of `derror.message`
when it returns `NULL`; `dbus_set_error_from_message` gives the text it extracts. -/
structure Bus where
  exo_dbus_bus_connection : Option Handle
  dbus_bus_acquire_service : Handle → String → Nat → Int × String
  dbus_connection_register_object_path : Handle → String → Int
  dbus_connection_send_with_reply_and_block :
    Handle → DBusMessage → Int → Except String DBusMessage
  dbus_set_error_from_message : DBusMessage → String

/-- What a `gboolean f (..., GError **error)` call hands back, with the world after it. -/
structure Outcome where
  ok : Bool
  error : Option String
  world : World
deriving DecidableEq, Repr

/-- The function `terminal_app_start_server`.  The `TERMINAL_IS_APP` check holds by typing.
Acquiring the name fails when the call returns zero (`!dbus_bus_acquire_service (...)`),
registering fails when the call returns a negative value. -/
def terminal_app_start_server (cfg : Config) (bus : Bus) (w : World) : Outcome :=
  if w.app.server_running then
    { ok := true, error := none, world := w }
  else
    match bus.exo_dbus_bus_connection with
    | none =>
      { ok := false, error := some "Unable to connect to D-BUS message daemon", world := w }
    | some connection =>
      let acquired := bus.dbus_bus_acquire_service connection cfg.TERMINAL_DBUS_SERVICE 0
      if acquired.1 = 0 then
        { ok := false,
          error := some ("Unable to acquire service " ++ cfg.TERMINAL_DBUS_SERVICE ++ ": "
            ++ acquired.2),
          world := emit Call.dbus_error_free w }
      else if bus.dbus_connection_register_object_path connection cfg.TERMINAL_DBUS_PATH < 0
      then
        { ok := false,
          error := some ("Unable to register object " ++ cfg.TERMINAL_DBUS_PATH ++ "\n"),
          world := w }
      else
        { ok := true, error := none,
          world := { w with app := { w.app with server_running := true } } }

/-- The message `terminal_app_try_invoke` builds: a Launch method call to the service, with
auto-activation switched off and the argument vector appended as one string array. -/
def launch_call (cfg : Config) (argv : List String) : DBusMessage :=
  { type := DBusMessageType.method_call,
    destination := some cfg.TERMINAL_DBUS_SERVICE,
    path := some cfg.TERMINAL_DBUS_PATH,
    interface := some cfg.TERMINAL_DBUS_INTERFACE,
    member := some cfg.TERMINAL_DBUS_METHOD_LAUNCH,
    error_name := none,
    auto_activation := false,
    args := [DBusArg.string_array argv] }

/-- What `terminal_app_try_invoke` hands back: the return value, the error stored through
the error-output parameter, and the calls it made. -/
structure Invoked where
  ok : Bool
  error : Option String
  calls : List Call
deriving DecidableEq, Repr

/-- The function `terminal_app_try_invoke`.  Of its calls the log keeps the blocking send and
`dbus_error_free`; building the request and releasing request and reply are not logged. -/
def terminal_app_try_invoke (cfg : Config) (bus : Bus) (argv : List String) : Invoked :=
  match bus.exo_dbus_bus_connection with
  | none => { ok := false, error := none, calls := [] }
  | some connection =>
    let message := launch_call cfg argv
    let sent := [Call.dbus_connection_send_with_reply_and_block connection message 2000]
    match bus.dbus_connection_send_with_reply_and_block connection message 2000 with
    | Except.error text =>
      { ok := false, error := some text, calls := sent ++ [Call.dbus_error_free] }
    | Except.ok result =>
      if dbus_message_is_error result cfg.TERMINAL_DBUS_ERROR then
        { ok := false, error := some (bus.dbus_set_error_from_message result),
          calls := sent ++ [Call.dbus_error_free] }
      else
        { ok := true, error := none, calls := sent }

/-! ### The log of `terminal_app_open_window`, as the spec words it -/

/-- The one call made for an optional value that is present. -/
def option_calls {α : Type} (o : Option α) (f : α → Call) : List Call :=
  match o with
  | some a => [f a]
  | none => []

/-- The overrides of one tab: command, working directory, title, each only when present. -/
def override_calls (terminal : Handle) (tab : TerminalTabAttr) : List Call :=
  option_calls tab.command (Call.terminal_widget_set_custom_command terminal) ++
  option_calls tab.directory (Call.terminal_widget_set_working_directory terminal) ++
  option_calls tab.title (Call.terminal_widget_set_custom_title terminal)

/-- Applying the geometry: nothing without a geometry string, else the parse call, followed
by the diagnostic when the string is invalid. -/
def geometry_calls (tk : Toolkit) (attr : TerminalWindowAttr) (window : Handle) : List Call :=
  match attr.geometry with
  | none => []
  | some g =>
    Call.gtk_window_parse_geometry window g ::
      (if tk.gtk_window_parse_geometry window g then []
       else [Call.g_printerr ("Invalid geometry string \"" ++ g ++ "\"\n")])

/-- The calls for the tab at position `p.1`, whose widget is the handle `base + p.1`: create
the widget, apply the overrides, attach it, for the first tab apply the geometry and show
the window, launch the child. -/
def tab_block (tk : Toolkit) (attr : TerminalWindowAttr) (window base : Handle)
    (p : Nat × TerminalTabAttr) : List Call :=
  [Call.terminal_widget_new (base + p.1)] ++ override_calls (base + p.1) p.2 ++
  [Call.terminal_window_add window (base + p.1)] ++
  (if p.1 = 0 then geometry_calls tk attr window ++ [Call.gtk_widget_show window] else []) ++
  [Call.terminal_widget_launch_child (base + p.1)]

/-- The calls that create the window: chrome flags, the two signal handlers, role and
startup id when present. -/
def window_header (attr : TerminalWindowAttr) (window : Handle) : List Call :=
  [Call.terminal_window_new attr.menubar attr.borders attr.toolbars window,
   Call.g_signal_connect window "destroy",
   Call.g_signal_connect window "new-window"] ++
  option_calls attr.role (Call.gtk_window_set_role window) ++
  option_calls attr.startup_id (Call.terminal_window_set_startup_id window)

/-- All calls of opening one window whose handle is `window`; its widgets take the handles
that follow. -/
def open_window_calls (tk : Toolkit) (attr : TerminalWindowAttr) (window : Handle) :
    List Call :=
  window_header attr window ++
    (attr.tabs.enumFrom 0).flatMap (tab_block tk attr window (window + 1))

/-- The calls `after` made that `before` had not yet made. -/
def calls_since (before after : World) : List Call :=
  after.calls.drop before.calls.length

/-- Creation of a terminal widget. -/
def is_widget_new : Call → Bool
  | Call.terminal_widget_new _ => true
  | _ => false

/-- One of the three per-tab overrides. -/
def is_override : Call → Bool
  | Call.terminal_widget_set_custom_command _ _ => true
  | Call.terminal_widget_set_working_directory _ _ => true
  | Call.terminal_widget_set_custom_title _ _ => true
  | _ => false

/-- Attaching a widget to a window. -/
def is_add : Call → Bool
  | Call.terminal_window_add _ _ => true
  | _ => false

/-- Launching the child process of a widget. -/
def is_launch : Call → Bool
  | Call.terminal_widget_launch_child _ => true
  | _ => false

/-- Applying geometry, its diagnostic, or showing the window. -/
def is_reveal : Call → Bool
  | Call.gtk_window_parse_geometry _ _ => true
  | Call.g_printerr _ => true
  | Call.gtk_widget_show _ => true
  | _ => false

/-- A diagnostic message. -/
def is_printerr : Call → Bool
  | Call.g_printerr _ => true
  | _ => false

/-- The handles the windows of `attrs` receive when the first one gets `n`: each window takes
one handle and each of its tabs one more. -/
def window_handles : Handle → List TerminalWindowAttr → List Handle
  | _, [] => []
  | n, attr :: rest => n :: window_handles (n + 1 + attr.tabs.length) rest

/-- The number of handles that opening `attrs` uses up. -/
def handles_used : List TerminalWindowAttr → Nat
  | [] => 0
  | attr :: rest => 1 + attr.tabs.length + handles_used rest

/-- The calls of opening `attrs` in turn when the first window gets the handle `n`. -/
def open_windows_calls (tk : Toolkit) : Handle → List TerminalWindowAttr → List Call
  | _, [] => []
  | n, attr :: rest =>
    open_window_calls tk attr n ++ open_windows_calls tk (n + 1 + attr.tabs.length) rest

/-- The calls that one `terminal_app_open_window` adds to the log. -/
def opened_calls (tk : Toolkit) (attr : TerminalWindowAttr) (w : World) : List Call :=
  calls_since w (terminal_app_open_window tk attr w)

/-- Sending a reply on the connection. -/
def is_send : Call → Bool
  | Call.dbus_connection_send _ _ => true
  | _ => false

/-- Creating a reply message. -/
def is_new_reply : Call → Bool
  | Call.dbus_message_new_error _ _ _ => true
  | Call.dbus_message_new_method_return _ => true
  | _ => false

/-- Creating a window. -/
def is_window_new : Call → Bool
  | Call.terminal_window_new _ _ _ _ => true
  | _ => false

/-- The handler of `terminal_app_message` applied to a world: the calls it added. -/
def message_calls (cfg : Config) (parse : Parser) (tk : Toolkit) (connection : Handle)
    (message : DBusMessage) (w : World) : List Call :=
  calls_since w (terminal_app_message cfg parse tk connection message w).2

/-- The calls `terminal_app_open_window` can make: window and widget construction. -/
def is_construction : Call → Bool
  | Call.terminal_window_new _ _ _ _ => true
  | Call.g_signal_connect _ _ => true
  | Call.gtk_window_set_role _ _ => true
  | Call.terminal_window_set_startup_id _ _ => true
  | Call.terminal_widget_new _ => true
  | Call.terminal_widget_set_custom_command _ _ => true
  | Call.terminal_widget_set_working_directory _ _ => true
  | Call.terminal_widget_set_custom_title _ _ => true
  | Call.terminal_window_add _ _ => true
  | Call.gtk_window_parse_geometry _ _ => true
  | Call.g_printerr _ => true
  | Call.gtk_widget_show _ => true
  | Call.terminal_widget_launch_child _ => true
  | _ => false

/-! ### Concrete inputs used to evaluate the functions -/

/-- Example values for the constants; the header that sets them is not among the sources. -/
def sample_config : Config :=
  { TERMINAL_DBUS_SERVICE := "org.xfce.Terminal",
    TERMINAL_DBUS_PATH := "/org/xfce/Terminal",
    TERMINAL_DBUS_INTERFACE := "org.xfce.Terminal",
    TERMINAL_DBUS_METHOD_LAUNCH := "Launch",
    TERMINAL_DBUS_ERROR := "org.xfce.Terminal.Error",
    DBUS_INTERFACE_ORG_FREEDESKTOP_LOCAL := "org.freedesktop.Local" }

/-- A toolkit that rejects every geometry string. -/
def strict_toolkit : Toolkit :=
  { gtk_window_parse_geometry := fun _ _ => false }

/-- A freshly created application: no window, server not running, nothing logged. -/
def empty_world : World :=
  { app := { windows := [], server_running := false }, next := 0, calls := [] }

/-- A parser that rejects every argument vector. -/
def parse_rejecting : Parser :=
  fun _ => Except.error "Unknown option"

/-- A window attribute with a geometry string and two tabs. -/
def two_tab_attr : TerminalWindowAttr :=
  { menubar := true, borders := true, toolbars := false,
    role := none, startup_id := none, geometry := some "80x",
    tabs := [{ command := none, directory := some "/tmp", title := none },
             { command := some ["top"], directory := none, title := some "top" }] }

/-- A parser that yields one window with two tabs and one window without tabs. -/
def parse_accepting : Parser :=
  fun _ => Except.ok [two_tab_attr, { two_tab_attr with tabs := [], geometry := none }]

/-- A Launch call as `terminal_app_try_invoke` sends it. -/
def sample_launch : DBusMessage :=
  launch_call sample_config ["Terminal", "--bogus"]

/-- A session without a message bus daemon: no connection can be obtained. -/
def bus_without_daemon : Bus :=
  { exo_dbus_bus_connection := none,
    dbus_bus_acquire_service := fun _ _ _ => (0, "no daemon"),
    dbus_connection_register_object_path := fun _ _ => -1,
    dbus_connection_send_with_reply_and_block := fun _ _ _ => Except.error "no daemon",
    dbus_set_error_from_message := fun _ => "" }

/-- A bus on which every call succeeds and the running instance answers with a method
return. -/
def working_bus : Bus :=
  { exo_dbus_bus_connection := some 1,
    dbus_bus_acquire_service := fun _ _ _ => (1, ""),
    dbus_connection_register_object_path := fun _ _ => 1,
    dbus_connection_send_with_reply_and_block := fun _ m _ =>
      Except.ok { m with type := DBusMessageType.method_return, args := [] },
    dbus_set_error_from_message := fun _ => "" }

/-- The signal the bus library delivers when the connection is lost. -/
def sample_disconnected : DBusMessage :=
  { type := DBusMessageType.signal, destination := none, path := none,
    interface := some "org.freedesktop.Local", member := some "Disconnected",
    error_name := none, auto_activation := true, args := [] }

/-- Processing a message as a launch, in the words of the claims: the handler returns HANDLED
and has sent exactly one reply. -/
def processed_as_launch (cfg : Config) (parse : Parser) (tk : Toolkit) (connection : Handle)
    (message : DBusMessage) (w : World) : Prop :=
  (terminal_app_message cfg parse tk connection message w).1 = DBusHandlerResult.HANDLED ∧
  (calls_since w (terminal_app_message cfg parse tk connection message w).2).countP is_send
    = 1

/-- A Launch method call that carries no argument at all. -/
def launch_without_arguments : DBusMessage :=
  { launch_call sample_config [] with args := [] }

/-- A method call to the service that is not Launch. -/
def unrelated_call : DBusMessage :=
  { launch_call sample_config [] with member := some "Ping", args := [] }

/-- A bus on which the service name cannot be acquired.  The bus library of the generation
the file is written for documents `dbus_bus_acquire_service` as returning a result code, and
-1 with the error set when the request fails. -/
def bus_name_refused : Bus :=
  { exo_dbus_bus_connection := some 1,
    dbus_bus_acquire_service := fun _ _ _ => (-1, "Connection is not allowed to own the service"),
    dbus_connection_register_object_path := fun _ _ => 1,
    dbus_connection_send_with_reply_and_block := fun _ _ _ => Except.error "no reply",
    dbus_set_error_from_message := fun _ => "" }

/-- A bus on which the name is acquired as primary owner (result code 1) and registering the
object path fails.  The bus library returns a boolean from
`dbus_connection_register_object_path`: `FALSE`, which is 0, on failure. -/
def bus_path_refused : Bus :=
  { exo_dbus_bus_connection := some 1,
    dbus_bus_acquire_service := fun _ _ _ => (1, ""),
    dbus_connection_register_object_path := fun _ _ => 0,
    dbus_connection_send_with_reply_and_block := fun _ _ _ => Except.error "no reply",
    dbus_set_error_from_message := fun _ => "" }

/-! ## Window-lifecycle tracking -/

theorem destroyed_of_mem (h : Handle) (w : World) (hm : h ∈ w.app.windows) :
    (terminal_app_window_destroyed h w).app.windows = w.app.windows.erase h ∧
    quits (terminal_app_window_destroyed h w)
      = quits w + (if w.app.windows.erase h = [] then 1 else 0) := by
  unfold terminal_app_window_destroyed
  by_cases he : w.app.windows.erase h = []
  · simp [hm, he, setWindows, emit, quits]
  · simp [hm, he, setWindows, quits]

theorem filter_not_mem_cons (ws : List Handle) (h : Handle) (t : List Handle)
    (hnd : ws.Nodup) :
    ws.filter (fun x => decide (x ∉ h :: t))
      = (ws.erase h).filter (fun x => decide (x ∉ t)) := by
  rw [hnd.erase_eq_filter, List.filter_filter]
  apply List.filter_congr
  intro x _
  by_cases h1 : x = h <;> by_cases h2 : x ∈ t <;> simp [h1, h2]

theorem destroy_each_spec : ∀ (order : List Handle) (w : World),
    order.Nodup → (∀ x ∈ order, x ∈ w.app.windows) → w.app.windows.Nodup →
    (destroy_each order w).app.windows
        = w.app.windows.filter (fun x => decide (x ∉ order)) ∧
    quits (destroy_each order w)
        = quits w + (if order ≠ [] ∧
            w.app.windows.filter (fun x => decide (x ∉ order)) = [] then 1 else 0) := by
  intro order
  induction order with
  | nil => intro w _ _ _; simp [destroy_each]
  | cons h t ih =>
    intro w ho hsub hnd
    have hm : h ∈ w.app.windows := hsub h (List.mem_cons_self _ _)
    obtain ⟨hw, hq⟩ := destroyed_of_mem h w hm
    have ht : t.Nodup := (List.nodup_cons.mp ho).2
    have hnot : h ∉ t := (List.nodup_cons.mp ho).1
    have hsub1 : ∀ x ∈ t, x ∈ (terminal_app_window_destroyed h w).app.windows := by
      intro x hx
      rw [hw]
      have hxh : x ≠ h := fun e => hnot (e ▸ hx)
      exact (List.mem_erase_of_ne hxh).mpr (hsub x (List.mem_cons_of_mem _ hx))
    have hnd1 : (terminal_app_window_destroyed h w).app.windows.Nodup := by
      rw [hw]; exact hnd.erase h
    obtain ⟨iw, iq⟩ := ih (terminal_app_window_destroyed h w) ht hsub1 hnd1
    have hstep : destroy_each (h :: t) w
        = destroy_each t (terminal_app_window_destroyed h w) := by
      simp [destroy_each]
    rw [hstep, filter_not_mem_cons _ h t hnd, iw, iq, hq, hw]
    refine ⟨rfl, ?_⟩
    by_cases he : w.app.windows.erase h = []
    · have htnil : t = [] := by
        cases t with
        | nil => rfl
        | cons y ys =>
          have := hsub1 y (List.mem_cons_self _ _)
          rw [hw, he] at this
          exact absurd this (List.not_mem_nil _)
      simp [he, htnil]
    · by_cases htn : t = []
      · simp [he, htn]
      · simp [he, htn]

/-- Claim C1: for a non-empty registry of pairwise distinct window handles, delivering the
destroy notification once per registered window, in any order, removes exactly the notified
window at each step (it was registered, the rest of the registry keeps its content and
order), and `gtk_main_quit` is requested exactly once overall: by the notification that
empties the registry, and by none before it. -/
theorem destroy_all_quits_once (w : World) (order : List Handle)
    (hne : w.app.windows ≠ []) (hnd : w.app.windows.Nodup)
    (hperm : order.Perm w.app.windows) :
    (∀ pre h post, order = pre ++ h :: post →
      h ∈ (destroy_each pre w).app.windows ∧
      (terminal_app_window_destroyed h (destroy_each pre w)).app.windows
        = (destroy_each pre w).app.windows.filter (fun x => decide (x ≠ h)) ∧
      (terminal_app_window_destroyed h (destroy_each pre w)).app.windows.length + 1
        = (destroy_each pre w).app.windows.length ∧
      quits (destroy_each pre w) = quits w ∧
      quits (terminal_app_window_destroyed h (destroy_each pre w))
        = quits w + (if post = [] then 1 else 0)) ∧
    (destroy_each order w).app.windows = [] ∧
    quits (destroy_each order w) = quits w + 1 := by
  have hond : order.Nodup := hperm.nodup_iff.mpr hnd
  have hall : ∀ x ∈ order, x ∈ w.app.windows := fun x hx => hperm.subset hx
  constructor
  · intro pre h post ho
    subst ho
    have hpre : pre.Nodup := (List.nodup_append.mp hond).1
    have hhp : h ∉ pre := fun hin =>
      (List.nodup_append.mp hond).2.2 hin (List.mem_cons_self _ _)
    have hsubpre : ∀ x ∈ pre, x ∈ w.app.windows := fun x hx =>
      hall x (List.mem_append_left _ hx)
    have hhw : h ∈ w.app.windows :=
      hall h (List.mem_append_right _ (List.mem_cons_self _ _))
    obtain ⟨pw, pq⟩ := destroy_each_spec pre w hpre hsubpre hnd
    have hmem : h ∈ (destroy_each pre w).app.windows := by
      rw [pw]; simp [hhw, hhp]
    have hndp : (destroy_each pre w).app.windows.Nodup := by
      rw [pw]; exact hnd.filter _
    obtain ⟨dw, dq⟩ := destroyed_of_mem h (destroy_each pre w) hmem
    have hq0 : quits (destroy_each pre w) = quits w := by
      rw [pq]
      have : w.app.windows.filter (fun x => decide (x ∉ pre)) ≠ [] := by
        rw [← pw]; exact List.ne_nil_of_mem hmem
      rw [if_neg (fun hc => this hc.2), Nat.add_zero]
    refine ⟨hmem, ?_, ?_, hq0, ?_⟩
    · rw [dw, hndp.erase_eq_filter]
      apply List.filter_congr
      intro x _
      by_cases hx : x = h <;> simp [hx]
    · rw [dw, List.length_erase_of_mem hmem]
      have : 0 < (destroy_each pre w).app.windows.length := List.length_pos_of_mem hmem
      omega
    · rw [dq, hq0]
      congr 1
      by_cases hp : post = []
      · subst hp
        have : (destroy_each pre w).app.windows.erase h = [] := by
          rw [hndp.erase_eq_filter, pw, List.filter_filter, List.filter_eq_nil_iff]
          intro x hx
          have hxo : x ∈ pre ++ [h] := hperm.mem_iff.mpr hx
          rcases List.mem_append.mp hxo with h1 | h1
          · simp [h1]
          · simp [List.mem_singleton.mp h1]
        simp [this]
      · obtain ⟨y, ys, rfl⟩ := List.exists_cons_of_ne_nil hp
        have hyw : y ∈ w.app.windows :=
          hall y (List.mem_append_right _ (List.mem_cons_of_mem _ (List.mem_cons_self _ _)))
        have hyp : y ∉ pre := fun hin =>
          (List.nodup_append.mp hond).2.2 hin
            (List.mem_cons_of_mem _ (List.mem_cons_self _ _))
        have hyh : y ≠ h := by
          have h2 := (List.nodup_append.mp hond).2.1
          intro e
          exact (List.nodup_cons.mp h2).1 (e ▸ List.mem_cons_self _ _)
        have hy : y ∈ (destroy_each pre w).app.windows.erase h := by
          rw [List.mem_erase_of_ne hyh, pw]
          simp [hyw, hyp]
        have : (destroy_each pre w).app.windows.erase h ≠ [] := List.ne_nil_of_mem hy
        simp [this]
  · obtain ⟨aw, aq⟩ := destroy_each_spec order w hond hall hnd
    have hempty : w.app.windows.filter (fun x => decide (x ∉ order)) = [] := by
      rw [List.filter_eq_nil_iff]
      intro x hx
      simp [hperm.mem_iff.mpr hx]
    have hone : order ≠ [] := fun e => hne (by
      have := hperm.length_eq
      rw [e] at this
      exact List.length_eq_zero.mp this.symm)
    refine ⟨by rw [aw, hempty], ?_⟩
    rw [aq, if_pos ⟨hone, hempty⟩]

/-- Claim C1 at a registry of three windows destroyed in the order 7, 3, 5. -/
theorem destroy_all_quits_once_witness :
    (destroy_each [7, 3, 5] ⟨⟨[3, 5, 7], false⟩, 8, []⟩).app.windows = [] ∧
    quits (destroy_each [7, 3, 5] ⟨⟨[3, 5, 7], false⟩, 8, []⟩) = 0 + 1 :=
  (destroy_all_quits_once ⟨⟨[3, 5, 7], false⟩, 8, []⟩ [7, 3, 5]
    (by decide) (by decide) (by decide)).2

/-! ## Window and tab construction -/

theorem emit_if_set_eq {α : Type} (o : Option α) (f : α → Call) (w : World) :
    emit_if_set o f w = { w with calls := w.calls ++ option_calls o f } := by
  cases o <;> simp [emit_if_set, option_calls, emit]

theorem first_tab_shown_eq (tk : Toolkit) (attr : TerminalWindowAttr) (window : Handle)
    (w : World) :
    first_tab_shown tk attr window w
      = { w with calls := w.calls ++
            (geometry_calls tk attr window ++ [Call.gtk_widget_show window]) } := by
  unfold first_tab_shown geometry_calls
  cases attr.geometry with
  | none => simp [emit]
  | some g =>
    by_cases hg : tk.gtk_window_parse_geometry window g = true <;> simp [emit, hg]

theorem open_tabs_eq (tk : Toolkit) (attr : TerminalWindowAttr) (window base : Handle) :
    ∀ (tabs : List TerminalTabAttr) (i : Nat) (w : World), w.next = base + i →
    open_tabs tk attr window i tabs w
      = { app := w.app, next := w.next + tabs.length,
          calls := w.calls ++ (tabs.enumFrom i).flatMap (tab_block tk attr window base) } := by
  intro tabs
  induction tabs with
  | nil => intro i w _; simp [open_tabs]
  | cons tab rest ih =>
    intro i w hn
    rw [open_tabs]
    simp only [emit_if_set_eq, first_tab_shown_eq]
    rw [ih]
    · by_cases hi : i = 0
      · simp [hi, emit, alloc, tab_block, override_calls, List.enumFrom_cons, hn,
          Nat.add_assoc, Nat.add_comm 1]
      · simp [hi, emit, alloc, tab_block, override_calls, List.enumFrom_cons, hn,
          Nat.add_assoc, Nat.add_comm 1]
    · by_cases hi : i = 0 <;> simp [hi, emit, alloc, hn, Nat.add_assoc]

theorem open_window_eq (tk : Toolkit) (attr : TerminalWindowAttr) (w : World) :
    terminal_app_open_window tk attr w
      = { app := { w.app with windows := w.app.windows ++ [w.next] },
          next := w.next + 1 + attr.tabs.length,
          calls := w.calls ++ open_window_calls tk attr w.next } := by
  unfold terminal_app_open_window
  simp only [emit_if_set_eq]
  have ha : (alloc w).1 = w.next := rfl
  rw [ha, open_tabs_eq tk attr w.next (w.next + 1)]
  · simp [emit, alloc, setWindows, open_window_calls, window_header]
  · simp [emit, alloc, setWindows]

theorem open_windows_eq (tk : Toolkit) : ∀ (attrs : List TerminalWindowAttr) (w : World),
    open_windows tk attrs w
      = { app := { w.app with windows := w.app.windows ++ window_handles w.next attrs },
          next := w.next + handles_used attrs,
          calls := w.calls ++ open_windows_calls tk w.next attrs } := by
  intro attrs
  induction attrs with
  | nil => intro w; simp [open_windows, window_handles, handles_used, open_windows_calls]
  | cons attr rest ih =>
    intro w
    rw [open_windows, ih, open_window_eq]
    simp [window_handles, handles_used, open_windows_calls, Nat.add_assoc]

theorem window_handles_length : ∀ (attrs : List TerminalWindowAttr) (n : Handle),
    (window_handles n attrs).length = attrs.length := by
  intro attrs
  induction attrs with
  | nil => intro n; rfl
  | cons attr rest ih => intro n; simp [window_handles, ih]

theorem window_handles_ge : ∀ (attrs : List TerminalWindowAttr) (n : Handle),
    ∀ h ∈ window_handles n attrs, n ≤ h := by
  intro attrs
  induction attrs with
  | nil => intro n h hh; simp [window_handles] at hh
  | cons attr rest ih =>
    intro n h hh
    simp only [window_handles, List.mem_cons] at hh
    rcases hh with rfl | hh
    · exact Nat.le_refl _
    · have h1 : n + 1 + attr.tabs.length ≤ h := ih _ h hh
      exact Nat.le_trans (Nat.le_trans (Nat.le_add_right n 1) (Nat.le_add_right _ _)) h1

theorem window_handles_lt : ∀ (attrs : List TerminalWindowAttr) (n : Handle),
    ∀ h ∈ window_handles n attrs, h < n + handles_used attrs := by
  intro attrs
  induction attrs with
  | nil => intro n h hh; simp [window_handles] at hh
  | cons attr rest ih =>
    intro n h hh
    simp only [window_handles, List.mem_cons] at hh
    rcases hh with rfl | hh
    · simp only [handles_used]
      exact Nat.lt_of_lt_of_le (Nat.lt_succ_self h)
        (by rw [Nat.add_assoc 1, ← Nat.add_assoc h]; exact Nat.le_add_right _ _)
    · have h1 : h < n + 1 + attr.tabs.length + handles_used rest := ih _ h hh
      simp only [handles_used]
      rw [← Nat.add_assoc, ← Nat.add_assoc]
      exact h1

theorem window_handles_nodup : ∀ (attrs : List TerminalWindowAttr) (n : Handle),
    (window_handles n attrs).Nodup := by
  intro attrs
  induction attrs with
  | nil => intro n; simp [window_handles]
  | cons attr rest ih =>
    intro n
    simp only [window_handles, List.nodup_cons]
    refine ⟨fun hin => ?_, ih _⟩
    have h1 : n + 1 + attr.tabs.length ≤ n := window_handles_ge rest _ n hin
    have h2 : n + 1 ≤ n := Nat.le_trans (Nat.le_add_right _ _) h1
    exact Nat.lt_irrefl n h2

theorem process_ok_eq (parse : Parser) (tk : Toolkit) (argv : List String)
    (attrs : List TerminalWindowAttr) (w : World) (hp : parse argv = Except.ok attrs) :
    terminal_app_process parse tk argv w = Except.ok
      { app := { w.app with windows := w.app.windows ++ window_handles w.next attrs },
        next := w.next + handles_used attrs,
        calls := w.calls ++ open_windows_calls tk w.next attrs ++
          attrs.map Call.terminal_window_attr_free ++ [Call.g_list_free] } := by
  simp [terminal_app_process, hp, open_windows_eq, emit]

theorem process_error_eq (parse : Parser) (tk : Toolkit) (argv : List String)
    (text : String) (w : World) (hp : parse argv = Except.error text) :
    terminal_app_process parse tk argv w = Except.error text := by
  simp [terminal_app_process, hp]

/-- Claim C2: opening one window attribute appends exactly one handle, the one just
allocated, to the end of the registry, whatever its tabs and geometry; and when the parse
of `argv` succeeds with the attributes `attrs`, `terminal_app_process` returns success with
the registry extended at its end by exactly one handle per attribute: the added handles are
pairwise distinct and none was allocated before, so the registry grows by `attrs.length`,
and from an empty registry its size is `attrs.length`. -/
theorem process_registers_one_window_per_attr (parse : Parser) (tk : Toolkit)
    (argv : List String) (attrs : List TerminalWindowAttr) (w : World)
    (hp : parse argv = Except.ok attrs) :
    (∀ (attr : TerminalWindowAttr) (v : World),
      (terminal_app_open_window tk attr v).app.windows = v.app.windows ++ [v.next]) ∧
    ∃ (w1 : World) (hs : List Handle),
      terminal_app_process parse tk argv w = Except.ok w1 ∧
      w1.app.windows = w.app.windows ++ hs ∧
      hs.length = attrs.length ∧ hs.Nodup ∧
      (∀ h ∈ hs, w.next ≤ h ∧ h < w1.next) ∧
      ((∀ x ∈ w.app.windows, x < w.next) → ∀ h ∈ hs, h ∉ w.app.windows) ∧
      w1.app.windows.length = w.app.windows.length + attrs.length ∧
      (w.app.windows = [] → w1.app.windows.length = attrs.length) := by
  refine ⟨fun attr v => by rw [open_window_eq], ?_⟩
  refine ⟨_, window_handles w.next attrs, process_ok_eq parse tk argv attrs w hp, rfl,
    window_handles_length _ _, window_handles_nodup _ _, ?_, ?_, ?_, ?_⟩
  · intro h hh
    exact ⟨window_handles_ge _ _ h hh, window_handles_lt _ _ h hh⟩
  · intro hlt h hh hin
    have h1 : w.next ≤ h := window_handles_ge _ _ h hh
    have h2 : h < w.next := hlt h hin
    exact Nat.lt_irrefl h (Nat.lt_of_lt_of_le h2 h1)
  · simp [window_handles_length]
  · intro he
    simp [he, window_handles_length]

theorem calls_since_open_window (tk : Toolkit) (attr : TerminalWindowAttr) (w : World) :
    calls_since w (terminal_app_open_window tk attr w) = open_window_calls tk attr w.next := by
  rw [open_window_eq]
  simp [calls_since]

theorem filter_option_calls {α : Type} (p : Call → Bool) (o : Option α) (f : α → Call)
    (b : Bool) (hp : ∀ a, p (f a) = b) :
    (option_calls o f).filter p = if b then option_calls o f else [] := by
  cases o <;> cases b <;> simp_all [option_calls]

theorem filter_override_calls (p : Call → Bool) (terminal : Handle) (tab : TerminalTabAttr)
    (b : Bool) (hp : ∀ c, is_override c = true → p c = b) :
    (override_calls terminal tab).filter p
      = if b then override_calls terminal tab else [] := by
  unfold override_calls
  rw [List.filter_append, List.filter_append,
    filter_option_calls p tab.command
      (Call.terminal_widget_set_custom_command terminal) b (fun a => hp _ rfl),
    filter_option_calls p tab.directory
      (Call.terminal_widget_set_working_directory terminal) b (fun a => hp _ rfl),
    filter_option_calls p tab.title
      (Call.terminal_widget_set_custom_title terminal) b (fun a => hp _ rfl)]
  cases b <;> simp

theorem filter_geometry_calls (p : Call → Bool) (tk : Toolkit) (attr : TerminalWindowAttr)
    (window : Handle) (b : Bool) (hp : ∀ c, is_reveal c = true → p c = b) :
    (geometry_calls tk attr window).filter p
      = if b then geometry_calls tk attr window else [] := by
  unfold geometry_calls
  cases attr.geometry with
  | none => cases b <;> simp
  | some g =>
    have h1 := hp (Call.gtk_window_parse_geometry window g) rfl
    have h2 := hp (Call.g_printerr ("Invalid geometry string \"" ++ g ++ "\"\n")) rfl
    by_cases hg : tk.gtk_window_parse_geometry window g = true <;>
      cases b <;> simp_all [List.filter_cons]

theorem filter_window_header (p : Call → Bool) (attr : TerminalWindowAttr) (window : Handle)
    (h1 : ∀ a b c d, p (Call.terminal_window_new a b c d) = false)
    (h2 : ∀ o g, p (Call.g_signal_connect o g) = false)
    (h3 : ∀ o r, p (Call.gtk_window_set_role o r) = false)
    (h4 : ∀ o r, p (Call.terminal_window_set_startup_id o r) = false) :
    (window_header attr window).filter p = [] := by
  cases hr : attr.role <;> cases hs : attr.startup_id <;>
    simp [window_header, option_calls, hr, hs, h1, h2, h3, h4]

theorem filter_tab_block (p : Call → Bool) (tk : Toolkit) (attr : TerminalWindowAttr)
    (window base : Handle) (x : Nat × TerminalTabAttr) (b1 b2 b3 b4 b5 : Bool)
    (h1 : ∀ t, p (Call.terminal_widget_new t) = b1)
    (h2 : ∀ c, is_override c = true → p c = b2)
    (h3 : ∀ o t, p (Call.terminal_window_add o t) = b3)
    (h4 : ∀ c, is_reveal c = true → p c = b4)
    (h5 : ∀ t, p (Call.terminal_widget_launch_child t) = b5) :
    (tab_block tk attr window base x).filter p
      = (if b1 then [Call.terminal_widget_new (base + x.1)] else []) ++
        (if b2 then override_calls (base + x.1) x.2 else []) ++
        (if b3 then [Call.terminal_window_add window (base + x.1)] else []) ++
        (if x.1 = 0 ∧ b4 = true
          then geometry_calls tk attr window ++ [Call.gtk_widget_show window] else []) ++
        (if b5 then [Call.terminal_widget_launch_child (base + x.1)] else []) := by
  unfold tab_block
  simp only [List.filter_append, filter_override_calls p _ _ b2 h2]
  have hs := h4 (Call.gtk_widget_show window) rfl
  by_cases hx : x.1 = 0
  · simp only [hx, if_true, List.filter_append, filter_geometry_calls p tk attr window b4 h4]
    cases b1 <;> cases b3 <;> cases b4 <;> cases b5 <;>
      simp [List.filter_cons, h1, h3, h5, hs]
  · simp only [hx, if_false, false_and]
    cases b1 <;> cases b3 <;> cases b5 <;> simp [List.filter_cons, h1, h3, h5]

theorem filter_tabs (p : Call → Bool) (tk : Toolkit) (attr : TerminalWindowAttr)
    (window base : Handle) (l : List (Nat × TerminalTabAttr)) (b1 b2 b3 b4 b5 : Bool)
    (h1 : ∀ t, p (Call.terminal_widget_new t) = b1)
    (h2 : ∀ c, is_override c = true → p c = b2)
    (h3 : ∀ o t, p (Call.terminal_window_add o t) = b3)
    (h4 : ∀ c, is_reveal c = true → p c = b4)
    (h5 : ∀ t, p (Call.terminal_widget_launch_child t) = b5) :
    (l.flatMap (tab_block tk attr window base)).filter p
      = l.flatMap (fun x =>
        (if b1 then [Call.terminal_widget_new (base + x.1)] else []) ++
        (if b2 then override_calls (base + x.1) x.2 else []) ++
        (if b3 then [Call.terminal_window_add window (base + x.1)] else []) ++
        (if x.1 = 0 ∧ b4 = true
          then geometry_calls tk attr window ++ [Call.gtk_widget_show window] else []) ++
        (if b5 then [Call.terminal_widget_launch_child (base + x.1)] else [])) := by
  rw [List.filter_flatMap]
  exact List.flatMap_congr (fun x _ => filter_tab_block p tk attr window base x b1 b2 b3 b4 b5
    h1 h2 h3 h4 h5)

theorem filter_printerr_geometry (tk : Toolkit) (attr : TerminalWindowAttr)
    (window : Handle) :
    (geometry_calls tk attr window).filter (fun c => !is_printerr c)
      = option_calls attr.geometry (Call.gtk_window_parse_geometry window) := by
  unfold geometry_calls
  cases attr.geometry with
  | none => simp [option_calls]
  | some g =>
    by_cases hg : tk.gtk_window_parse_geometry window g = true <;>
      simp [option_calls, hg, List.filter_cons, is_printerr]

theorem filter_printerr_open_window (tk tk2 : Toolkit) (attr : TerminalWindowAttr)
    (window : Handle) :
    (open_window_calls tk attr window).filter (fun c => !is_printerr c)
      = (open_window_calls tk2 attr window).filter (fun c => !is_printerr c) := by
  unfold open_window_calls
  rw [List.filter_append, List.filter_append, List.filter_flatMap, List.filter_flatMap]
  congr 1
  apply List.flatMap_congr
  intro x _
  unfold tab_block
  by_cases hx : x.1 = 0
  · simp only [hx, if_true, List.filter_append, filter_printerr_geometry]
  · simp only [hx, if_false, List.filter_append]

theorem later_tabs_not_revealed (tk : Toolkit) (attr : TerminalWindowAttr)
    (window base : Handle) (rest : List TerminalTabAttr) :
    ((rest.enumFrom 1).flatMap (tab_block tk attr window base)).filter is_reveal = [] := by
  rw [filter_tabs is_reveal tk attr window base _ false false false true false
    (fun _ => rfl) (fun c hc => by cases c <;> simp_all [is_override, is_reveal])
    (fun _ _ => rfl) (fun _ hc => hc) (fun _ => rfl)]
  rw [List.flatMap_eq_nil_iff]
  intro x hx
  have h1 : 1 ≤ x.1 := List.le_fst_of_mem_enumFrom hx
  have h0 : x.1 ≠ 0 := Nat.one_le_iff_ne_zero.mp h1
  simp [h0]

theorem opened_calls_eq (tk : Toolkit) (attr : TerminalWindowAttr) (w : World) :
    opened_calls tk attr w = open_window_calls tk attr w.next :=
  calls_since_open_window tk attr w

theorem kinds_disjoint (c : Call) :
    (is_override c = true →
      is_widget_new c = false ∧ is_add c = false ∧ is_launch c = false ∧
        is_reveal c = false) ∧
    (is_reveal c = true →
      is_widget_new c = false ∧ is_add c = false ∧ is_launch c = false ∧
        is_override c = false) := by
  cases c <;> constructor <;> intro h <;>
    first
    | exact ⟨rfl, rfl, rfl, rfl⟩
    | cases h

theorem opened_filter (tk : Toolkit) (attr : TerminalWindowAttr) (w : World)
    (p : Call → Bool)
    (h1 : ∀ a b c d, p (Call.terminal_window_new a b c d) = false)
    (h2 : ∀ o g, p (Call.g_signal_connect o g) = false)
    (h3 : ∀ o r, p (Call.gtk_window_set_role o r) = false)
    (h4 : ∀ o r, p (Call.terminal_window_set_startup_id o r) = false) :
    (opened_calls tk attr w).filter p
      = ((attr.tabs.enumFrom 0).flatMap
          (tab_block tk attr w.next (w.next + 1))).filter p := by
  rw [opened_calls_eq, open_window_calls, List.filter_append,
    filter_window_header p attr w.next h1 h2 h3 h4, List.nil_append]

theorem opened_widget_count (tk : Toolkit) (attr : TerminalWindowAttr) (w : World) :
    (opened_calls tk attr w).countP is_widget_new = attr.tabs.length := by
  rw [List.countP_eq_length_filter,
    opened_filter tk attr w is_widget_new (fun _ _ _ _ => rfl) (fun _ _ => rfl)
      (fun _ _ => rfl) (fun _ _ => rfl),
    filter_tabs is_widget_new tk attr w.next (w.next + 1) _ true false false false false
      (fun _ => rfl) (fun c hc => ((kinds_disjoint c).1 hc).1)
      (fun _ _ => rfl) (fun c hc => ((kinds_disjoint c).2 hc).1)
      (fun _ => rfl)]
  simp [List.length_flatMap, Function.comp_def]

theorem opened_launch_count (tk : Toolkit) (attr : TerminalWindowAttr) (w : World) :
    (opened_calls tk attr w).countP is_launch = attr.tabs.length := by
  rw [List.countP_eq_length_filter,
    opened_filter tk attr w is_launch (fun _ _ _ _ => rfl) (fun _ _ => rfl)
      (fun _ _ => rfl) (fun _ _ => rfl),
    filter_tabs is_launch tk attr w.next (w.next + 1) _ false false false false true
      (fun _ => rfl) (fun c hc => ((kinds_disjoint c).1 hc).2.2.1)
      (fun _ _ => rfl) (fun c hc => ((kinds_disjoint c).2 hc).2.2.1)
      (fun _ => rfl)]
  simp [List.length_flatMap, Function.comp_def]

theorem opened_attach_order (tk : Toolkit) (attr : TerminalWindowAttr) (w : World) :
    (opened_calls tk attr w).filter
        (fun c => is_widget_new c || (is_override c || is_add c))
      = (attr.tabs.enumFrom 0).flatMap (fun x =>
          [Call.terminal_widget_new (w.next + 1 + x.1)] ++
          override_calls (w.next + 1 + x.1) x.2 ++
          [Call.terminal_window_add w.next (w.next + 1 + x.1)]) := by
  rw [opened_filter tk attr w _ (fun _ _ _ _ => rfl) (fun _ _ => rfl) (fun _ _ => rfl)
      (fun _ _ => rfl),
    filter_tabs _ tk attr w.next (w.next + 1) _ true true true false false
      (fun _ => rfl)
      (fun c hc => by simp only [hc, Bool.true_or, Bool.or_true])
      (fun _ _ => rfl)
      (fun c hc => by
        obtain ⟨a1, a2, _, a4⟩ := (kinds_disjoint c).2 hc
        simp only [a1, a2, a4, Bool.or_self])
      (fun _ => rfl)]
  apply List.flatMap_congr
  intro x _
  simp

theorem opened_attach_launch (tk : Toolkit) (attr : TerminalWindowAttr) (w : World) :
    (opened_calls tk attr w).filter (fun c => is_add c || is_launch c)
      = (attr.tabs.enumFrom 0).flatMap (fun x =>
          [Call.terminal_window_add w.next (w.next + 1 + x.1),
           Call.terminal_widget_launch_child (w.next + 1 + x.1)]) := by
  rw [opened_filter tk attr w _ (fun _ _ _ _ => rfl) (fun _ _ => rfl) (fun _ _ => rfl)
      (fun _ _ => rfl),
    filter_tabs _ tk attr w.next (w.next + 1) _ false false true false true
      (fun _ => rfl)
      (fun c hc => by
        obtain ⟨_, a2, a3, _⟩ := (kinds_disjoint c).1 hc
        simp only [a2, a3, Bool.or_self])
      (fun _ _ => rfl)
      (fun c hc => by
        obtain ⟨_, a2, a3, _⟩ := (kinds_disjoint c).2 hc
        simp only [a2, a3, Bool.or_self])
      (fun _ => rfl)]
  apply List.flatMap_congr
  intro x _
  simp

theorem opened_first_tab (tk : Toolkit) (attr : TerminalWindowAttr) (w : World)
    (tab : TerminalTabAttr) (rest : List TerminalTabAttr) (ht : attr.tabs = tab :: rest) :
    opened_calls tk attr w
      = window_header attr w.next ++
        ([Call.terminal_widget_new (w.next + 1)] ++ override_calls (w.next + 1) tab ++
          [Call.terminal_window_add w.next (w.next + 1)]) ++
        (geometry_calls tk attr w.next ++ [Call.gtk_widget_show w.next]) ++
        [Call.terminal_widget_launch_child (w.next + 1)] ++
        (rest.enumFrom 1).flatMap (tab_block tk attr w.next (w.next + 1)) := by
  rw [opened_calls_eq, open_window_calls, ht, List.enumFrom_cons, List.flatMap_cons]
  simp [tab_block, List.append_assoc]

theorem count_eq_of_filter_reveal (l : List Call) (c : Call) (hc : is_reveal c = true) :
    l.count c = (l.filter is_reveal).count c := by
  induction l with
  | nil => rfl
  | cons a t ih =>
    by_cases ha : is_reveal a = true
    · rw [List.filter_cons_of_pos ha, List.count_cons, List.count_cons, ih]
    · rw [List.filter_cons_of_neg ha, List.count_cons, ih]
      have : a ≠ c := fun e => ha (e ▸ hc)
      simp [this]

theorem count_show_geometry (tk : Toolkit) (attr : TerminalWindowAttr) (window : Handle) :
    (geometry_calls tk attr window).count (Call.gtk_widget_show window) = 0 := by
  unfold geometry_calls
  cases attr.geometry with
  | none => rfl
  | some g =>
    by_cases hg : tk.gtk_window_parse_geometry window g = true <;>
      simp [hg, List.count_cons]

theorem opened_show_once (tk : Toolkit) (attr : TerminalWindowAttr) (w : World)
    (tab : TerminalTabAttr) (rest : List TerminalTabAttr) (ht : attr.tabs = tab :: rest) :
    (opened_calls tk attr w).count (Call.gtk_widget_show w.next) = 1 := by
  rw [count_eq_of_filter_reveal _ (Call.gtk_widget_show w.next) rfl,
    opened_first_tab tk attr w tab rest ht]
  simp only [List.filter_append, later_tabs_not_revealed,
    filter_window_header is_reveal attr w.next (fun _ _ _ _ => rfl) (fun _ _ => rfl)
      (fun _ _ => rfl) (fun _ _ => rfl),
    filter_override_calls is_reveal _ _ false (fun c hc => ((kinds_disjoint c).1 hc).2.2.2),
    filter_geometry_calls is_reveal tk attr w.next true (fun _ hc => hc)]
  simp [List.filter_cons, is_reveal, List.count_append, count_show_geometry, List.count_cons]

/-- Claim C7: `terminal_app_open_window` on an attribute with `k` tabs registers the window
and logs exactly its own calls, among them: `k` widget creations, one per tab; per tab, in
tab-list order, the creation, the overrides that are present (absent ones skipped) and the
attachment to the window; per tab one child launch, right after that tab's attachment in
the attach/launch order.  Geometry and show: none without tabs; with a first tab the log is
the window creation, the first tab up to its attachment, the geometry calls (none without a
geometry string, else one parse and, for an invalid string, the diagnostic), one show, the
first launch, and then later calls that hold no geometry, diagnostic or show call.  Whether
the toolkit accepts the geometry changes nothing but the diagnostic. -/
theorem open_window_builds_tabs (tk : Toolkit) (attr : TerminalWindowAttr) (w : World) :
    (terminal_app_open_window tk attr w).calls = w.calls ++ opened_calls tk attr w ∧
    (terminal_app_open_window tk attr w).app.windows = w.app.windows ++ [w.next] ∧
    (opened_calls tk attr w).countP is_widget_new = attr.tabs.length ∧
    (opened_calls tk attr w).filter
        (fun c => is_widget_new c || (is_override c || is_add c))
      = (attr.tabs.enumFrom 0).flatMap (fun x =>
          [Call.terminal_widget_new (w.next + 1 + x.1)] ++
          override_calls (w.next + 1 + x.1) x.2 ++
          [Call.terminal_window_add w.next (w.next + 1 + x.1)]) ∧
    (opened_calls tk attr w).countP is_launch = attr.tabs.length ∧
    (opened_calls tk attr w).filter (fun c => is_add c || is_launch c)
      = (attr.tabs.enumFrom 0).flatMap (fun x =>
          [Call.terminal_window_add w.next (w.next + 1 + x.1),
           Call.terminal_widget_launch_child (w.next + 1 + x.1)]) ∧
    (attr.tabs = [] → (opened_calls tk attr w).filter is_reveal = []) ∧
    (∀ tab rest, attr.tabs = tab :: rest →
      (opened_calls tk attr w).count (Call.gtk_widget_show w.next) = 1 ∧
      ∃ later,
        opened_calls tk attr w
          = window_header attr w.next ++
            ([Call.terminal_widget_new (w.next + 1)] ++ override_calls (w.next + 1) tab ++
              [Call.terminal_window_add w.next (w.next + 1)]) ++
            (geometry_calls tk attr w.next ++ [Call.gtk_widget_show w.next]) ++
            [Call.terminal_widget_launch_child (w.next + 1)] ++ later ∧
        (window_header attr w.next).filter is_reveal = [] ∧
        later.filter is_reveal = []) ∧
    (attr.geometry = none → geometry_calls tk attr w.next = []) ∧
    (∀ g, attr.geometry = some g →
      geometry_calls tk attr w.next
        = Call.gtk_window_parse_geometry w.next g ::
            (if tk.gtk_window_parse_geometry w.next g then []
             else [Call.g_printerr ("Invalid geometry string \"" ++ g ++ "\"\n")])) ∧
    (∀ tk2 : Toolkit,
      (terminal_app_open_window tk2 attr w).app = (terminal_app_open_window tk attr w).app ∧
      (terminal_app_open_window tk2 attr w).next = (terminal_app_open_window tk attr w).next ∧
      (opened_calls tk2 attr w).filter (fun c => !is_printerr c)
        = (opened_calls tk attr w).filter (fun c => !is_printerr c)) := by
  refine ⟨?_, ?_, opened_widget_count tk attr w, opened_attach_order tk attr w,
    opened_launch_count tk attr w, opened_attach_launch tk attr w, ?_, ?_, ?_, ?_, ?_⟩
  · rw [opened_calls_eq, open_window_eq]
  · rw [open_window_eq]
  · intro ht
    rw [opened_filter tk attr w is_reveal (fun _ _ _ _ => rfl) (fun _ _ => rfl)
      (fun _ _ => rfl) (fun _ _ => rfl), ht]
    rfl
  · intro tab rest ht
    exact ⟨opened_show_once tk attr w tab rest ht, _, opened_first_tab tk attr w tab rest ht,
      filter_window_header is_reveal attr w.next (fun _ _ _ _ => rfl) (fun _ _ => rfl)
        (fun _ _ => rfl) (fun _ _ => rfl),
      later_tabs_not_revealed tk attr w.next (w.next + 1) rest⟩
  · intro hg
    simp [geometry_calls, hg]
  · intro g hg
    simp [geometry_calls, hg]
  · intro tk2
    rw [open_window_eq, open_window_eq, opened_calls_eq, opened_calls_eq]
    exact ⟨rfl, rfl, filter_printerr_open_window tk2 tk attr w.next⟩

/-! ## The bus service handler -/

theorem string_array_has_args (m : DBusMessage) (argv : List String)
    (h : dbus_message_iter_get_string_array m = some argv) :
    dbus_message_iter_init m = true := by
  unfold dbus_message_iter_get_string_array at h
  unfold dbus_message_iter_init
  cases hm : m.args with
  | nil => rw [hm] at h; cases h
  | cons a t => rfl

theorem message_no_args (cfg : Config) (parse : Parser) (tk : Toolkit) (connection : Handle)
    (m : DBusMessage) (w : World)
    (hl : dbus_message_is_method_call m cfg.TERMINAL_DBUS_INTERFACE
      cfg.TERMINAL_DBUS_METHOD_LAUNCH = true)
    (ha : dbus_message_iter_init m = false) :
    terminal_app_message cfg parse tk connection m w
      = (DBusHandlerResult.NOT_YET_HANDLED, w) := by
  simp [terminal_app_message, hl, ha]

theorem message_invalid_args (cfg : Config) (parse : Parser) (tk : Toolkit)
    (connection : Handle) (m : DBusMessage) (w : World)
    (hl : dbus_message_is_method_call m cfg.TERMINAL_DBUS_INTERFACE
      cfg.TERMINAL_DBUS_METHOD_LAUNCH = true)
    (ha : dbus_message_iter_init m = true)
    (hs : dbus_message_iter_get_string_array m = none) :
    terminal_app_message cfg parse tk connection m w
      = (DBusHandlerResult.HANDLED,
          { app := w.app, next := w.next + 1,
            calls := w.calls ++
              [Call.dbus_message_new_error w.next cfg.TERMINAL_DBUS_ERROR "Invalid arguments",
               Call.dbus_connection_send connection w.next,
               Call.dbus_message_unref w.next] }) := by
  simp [terminal_app_message, hl, ha, hs, emit, alloc]

theorem message_parse_error (cfg : Config) (parse : Parser) (tk : Toolkit)
    (connection : Handle) (m : DBusMessage) (w : World) (argv : List String) (text : String)
    (hl : dbus_message_is_method_call m cfg.TERMINAL_DBUS_INTERFACE
      cfg.TERMINAL_DBUS_METHOD_LAUNCH = true)
    (hs : dbus_message_iter_get_string_array m = some argv)
    (hp : parse argv = Except.error text) :
    terminal_app_message cfg parse tk connection m w
      = (DBusHandlerResult.HANDLED,
          { app := w.app, next := w.next + 1,
            calls := w.calls ++
              [Call.dbus_message_new_error w.next cfg.TERMINAL_DBUS_ERROR text,
               Call.dbus_connection_send connection w.next,
               Call.dbus_message_unref w.next,
               Call.dbus_free_string_array argv,
               Call.dbus_message_unref w.next] }) := by
  have ha := string_array_has_args m argv hs
  simp [terminal_app_message, hl, ha, hs, process_error_eq parse tk argv text w hp, emit,
    alloc]

theorem message_parse_ok (cfg : Config) (parse : Parser) (tk : Toolkit)
    (connection : Handle) (m : DBusMessage) (w : World) (argv : List String)
    (attrs : List TerminalWindowAttr)
    (hl : dbus_message_is_method_call m cfg.TERMINAL_DBUS_INTERFACE
      cfg.TERMINAL_DBUS_METHOD_LAUNCH = true)
    (hs : dbus_message_iter_get_string_array m = some argv)
    (hp : parse argv = Except.ok attrs) :
    terminal_app_message cfg parse tk connection m w
      = (DBusHandlerResult.HANDLED,
          { app := { w.app with windows := w.app.windows ++ window_handles w.next attrs },
            next := w.next + handles_used attrs + 1,
            calls := w.calls ++
              (open_windows_calls tk w.next attrs ++
                attrs.map Call.terminal_window_attr_free ++ [Call.g_list_free] ++
              [Call.dbus_message_new_method_return (w.next + handles_used attrs),
               Call.dbus_connection_send connection (w.next + handles_used attrs),
               Call.dbus_free_string_array argv,
               Call.dbus_message_unref (w.next + handles_used attrs)]) }) := by
  have ha := string_array_has_args m argv hs
  simp [terminal_app_message, hl, ha, hs, process_ok_eq parse tk argv attrs w hp, emit,
    alloc]

theorem option_calls_construction {α : Type} {o : Option α} {f : α → Call}
    (c : Call) (hc : c ∈ option_calls o f) (hf : ∀ a, is_construction (f a) = true) :
    is_construction c = true := by
  cases o with
  | none => simp [option_calls] at hc
  | some a =>
    simp only [option_calls, List.mem_singleton] at hc
    rw [hc]; exact hf a

theorem geometry_calls_construction (tk : Toolkit) (attr : TerminalWindowAttr)
    (window : Handle) : ∀ c ∈ geometry_calls tk attr window, is_construction c = true := by
  intro c hc
  unfold geometry_calls at hc
  cases hg : attr.geometry with
  | none => rw [hg] at hc; simp at hc
  | some g =>
    rw [hg] at hc
    by_cases hv : tk.gtk_window_parse_geometry window g = true
    · simp [hv] at hc
      rw [hc]; rfl
    · simp [hv] at hc
      rcases hc with rfl | rfl <;> rfl

theorem tab_block_construction (tk : Toolkit) (attr : TerminalWindowAttr)
    (window base : Handle) (x : Nat × TerminalTabAttr) :
    ∀ c ∈ tab_block tk attr window base x, is_construction c = true := by
  intro c hc
  unfold tab_block override_calls at hc
  simp only [List.mem_append, List.mem_singleton] at hc
  rcases hc with (((rfl | ((h | h) | h)) | rfl) | h) | rfl
  · rfl
  · exact option_calls_construction c h (fun _ => rfl)
  · exact option_calls_construction c h (fun _ => rfl)
  · exact option_calls_construction c h (fun _ => rfl)
  · rfl
  · by_cases hx : x.1 = 0
    · simp only [hx, if_true, List.mem_append, List.mem_singleton] at h
      rcases h with h | rfl
      · exact geometry_calls_construction tk attr window c h
      · rfl
    · simp [hx] at h
  · rfl

theorem open_window_calls_construction (tk : Toolkit) (attr : TerminalWindowAttr)
    (window : Handle) : ∀ c ∈ open_window_calls tk attr window, is_construction c = true := by
  intro c hc
  unfold open_window_calls window_header at hc
  simp only [List.mem_append, List.mem_cons, List.mem_singleton, List.not_mem_nil, or_false,
    List.mem_flatMap] at hc
  rcases hc with (((rfl | rfl | rfl) | h) | h) | ⟨x, _, h⟩
  · rfl
  · rfl
  · rfl
  · exact option_calls_construction c h (fun _ => rfl)
  · exact option_calls_construction c h (fun _ => rfl)
  · exact tab_block_construction tk attr window (window + 1) x c h

theorem open_windows_calls_construction (tk : Toolkit) :
    ∀ (attrs : List TerminalWindowAttr) (n : Handle),
    ∀ c ∈ open_windows_calls tk n attrs, is_construction c = true := by
  intro attrs
  induction attrs with
  | nil => intro n c hc; simp [open_windows_calls] at hc
  | cons attr rest ih =>
    intro n c hc
    simp only [open_windows_calls, List.mem_append] at hc
    rcases hc with h | h
    · exact open_window_calls_construction tk attr n c h
    · exact ih _ c h

theorem filter_open_windows_calls (tk : Toolkit) (attrs : List TerminalWindowAttr)
    (n : Handle) (p : Call → Bool) (hp : ∀ c, is_construction c = true → p c = false) :
    (open_windows_calls tk n attrs).filter p = [] := by
  rw [List.filter_eq_nil_iff]
  intro c hc
  rw [hp c (open_windows_calls_construction tk attrs n c hc)]
  exact Bool.false_ne_true

theorem count_window_new_open_window (tk : Toolkit) (attr : TerminalWindowAttr)
    (n : Handle) : (open_window_calls tk attr n).countP is_window_new = 1 := by
  unfold open_window_calls
  rw [List.countP_append, List.countP_eq_length_filter _ (List.flatMap _ _),
    filter_tabs is_window_new tk attr n (n + 1) _ false false false false false
      (fun _ => rfl)
      (fun c hc => by cases c <;> first | rfl | cases hc)
      (fun _ _ => rfl)
      (fun c hc => by cases c <;> first | rfl | cases hc)
      (fun _ => rfl)]
  cases hr : attr.role <;> cases hs : attr.startup_id <;>
    simp [window_header, option_calls, hr, hs, is_window_new, List.countP_cons,
      Function.comp_def]

theorem count_window_new_open_windows (tk : Toolkit) :
    ∀ (attrs : List TerminalWindowAttr) (n : Handle),
    (open_windows_calls tk n attrs).countP is_window_new = attrs.length := by
  intro attrs
  induction attrs with
  | nil => intro n; rfl
  | cons attr rest ih =>
    intro n
    rw [open_windows_calls, List.countP_append, count_window_new_open_window, ih,
      List.length_cons, Nat.add_comm]

theorem first_string_array (m : DBusMessage) (argv : List String) (rest : List DBusArg)
    (h : m.args = DBusArg.string_array argv :: rest) :
    dbus_message_iter_get_string_array m = some argv := by
  simp [dbus_message_iter_get_string_array, h]

theorem message_calls_parse_error (cfg : Config) (parse : Parser) (tk : Toolkit)
    (connection : Handle) (m : DBusMessage) (w : World) (argv : List String) (text : String)
    (hl : dbus_message_is_method_call m cfg.TERMINAL_DBUS_INTERFACE
      cfg.TERMINAL_DBUS_METHOD_LAUNCH = true)
    (hs : dbus_message_iter_get_string_array m = some argv)
    (hp : parse argv = Except.error text) :
    message_calls cfg parse tk connection m w
      = [Call.dbus_message_new_error w.next cfg.TERMINAL_DBUS_ERROR text,
         Call.dbus_connection_send connection w.next,
         Call.dbus_message_unref w.next,
         Call.dbus_free_string_array argv,
         Call.dbus_message_unref w.next] := by
  rw [message_calls, message_parse_error cfg parse tk connection m w argv text hl hs hp]
  simp [calls_since]

theorem message_calls_parse_ok (cfg : Config) (parse : Parser) (tk : Toolkit)
    (connection : Handle) (m : DBusMessage) (w : World) (argv : List String)
    (attrs : List TerminalWindowAttr)
    (hl : dbus_message_is_method_call m cfg.TERMINAL_DBUS_INTERFACE
      cfg.TERMINAL_DBUS_METHOD_LAUNCH = true)
    (hs : dbus_message_iter_get_string_array m = some argv)
    (hp : parse argv = Except.ok attrs) :
    message_calls cfg parse tk connection m w
      = open_windows_calls tk w.next attrs ++
          attrs.map Call.terminal_window_attr_free ++ [Call.g_list_free] ++
        [Call.dbus_message_new_method_return (w.next + handles_used attrs),
         Call.dbus_connection_send connection (w.next + handles_used attrs),
         Call.dbus_free_string_array argv,
         Call.dbus_message_unref (w.next + handles_used attrs)] := by
  rw [message_calls, message_parse_ok cfg parse tk connection m w argv attrs hl hs hp]
  simp [calls_since]

theorem message_calls_invalid_args (cfg : Config) (parse : Parser) (tk : Toolkit)
    (connection : Handle) (m : DBusMessage) (w : World)
    (hl : dbus_message_is_method_call m cfg.TERMINAL_DBUS_INTERFACE
      cfg.TERMINAL_DBUS_METHOD_LAUNCH = true)
    (ha : dbus_message_iter_init m = true)
    (hs : dbus_message_iter_get_string_array m = none) :
    message_calls cfg parse tk connection m w
      = [Call.dbus_message_new_error w.next cfg.TERMINAL_DBUS_ERROR "Invalid arguments",
         Call.dbus_connection_send connection w.next,
         Call.dbus_message_unref w.next] := by
  rw [message_calls, message_invalid_args cfg parse tk connection m w hl ha hs]
  simp [calls_since]

theorem filter_map_attr_free (attrs : List TerminalWindowAttr) (p : Call → Bool)
    (hp : ∀ a, p (Call.terminal_window_attr_free a) = false) :
    (attrs.map Call.terminal_window_attr_free).filter p = [] := by
  rw [List.filter_eq_nil_iff]
  intro c hc
  obtain ⟨a, _, rfl⟩ := List.mem_map.mp hc
  rw [hp a]
  exact Bool.false_ne_true

theorem construction_not_reply (c : Call) (hc : is_construction c = true) :
    is_send c = false ∧ is_new_reply c = false ∧
      (is_new_reply c || is_send c) = false := by
  cases c <;> first
    | exact ⟨rfl, rfl, rfl⟩
    | cases hc

theorem calls_since_open_windows (tk : Toolkit) (attrs : List TerminalWindowAttr)
    (w : World) : calls_since w (open_windows tk attrs w) = open_windows_calls tk w.next attrs := by
  rw [open_windows_eq]
  simp [calls_since]

/-- Claim C3: a Launch method call whose first argument is a string array is answered with
exactly one reply and the handler returns HANDLED.  When parsing the array fails, the reply
is an error named `TERMINAL_DBUS_ERROR` with the parser's message, and the application
object is unchanged and no window is created.  When parsing succeeds, the windows of the
parsed attributes are opened first, one per attribute, and the reply is a method return. -/
theorem launch_is_answered_once (cfg : Config) (parse : Parser) (tk : Toolkit)
    (connection : Handle) (m : DBusMessage) (w : World) (argv : List String)
    (rest : List DBusArg)
    (hl : dbus_message_is_method_call m cfg.TERMINAL_DBUS_INTERFACE
      cfg.TERMINAL_DBUS_METHOD_LAUNCH = true)
    (hargs : m.args = DBusArg.string_array argv :: rest) :
    (terminal_app_message cfg parse tk connection m w).1 = DBusHandlerResult.HANDLED ∧
    (message_calls cfg parse tk connection m w).countP is_send = 1 ∧
    (message_calls cfg parse tk connection m w).countP is_new_reply = 1 ∧
    (∀ text, parse argv = Except.error text →
      (message_calls cfg parse tk connection m w).filter
          (fun c => is_new_reply c || is_send c)
        = [Call.dbus_message_new_error w.next cfg.TERMINAL_DBUS_ERROR text,
           Call.dbus_connection_send connection w.next] ∧
      (terminal_app_message cfg parse tk connection m w).2.app = w.app ∧
      (message_calls cfg parse tk connection m w).countP is_window_new = 0) ∧
    (∀ attrs, parse argv = Except.ok attrs →
      (message_calls cfg parse tk connection m w).filter
          (fun c => is_new_reply c || is_send c)
        = [Call.dbus_message_new_method_return (w.next + handles_used attrs),
           Call.dbus_connection_send connection (w.next + handles_used attrs)] ∧
      (terminal_app_message cfg parse tk connection m w).2.app
        = (open_windows tk attrs w).app ∧
      (terminal_app_message cfg parse tk connection m w).2.app.windows.length
        = w.app.windows.length + attrs.length ∧
      (message_calls cfg parse tk connection m w).countP is_window_new = attrs.length ∧
      ∃ tail, message_calls cfg parse tk connection m w
        = calls_since w (open_windows tk attrs w) ++ tail ∧
        tail.countP is_window_new = 0) := by
  have hs := first_string_array m argv rest hargs
  have hsend : ∀ attrs : List TerminalWindowAttr,
      (open_windows_calls tk w.next attrs).filter is_send = [] := fun attrs =>
    filter_open_windows_calls tk attrs w.next is_send
      (fun c hc => (construction_not_reply c hc).1)
  have hnew : ∀ attrs : List TerminalWindowAttr,
      (open_windows_calls tk w.next attrs).filter is_new_reply = [] := fun attrs =>
    filter_open_windows_calls tk attrs w.next is_new_reply
      (fun c hc => (construction_not_reply c hc).2.1)
  have hboth : ∀ attrs : List TerminalWindowAttr,
      (open_windows_calls tk w.next attrs).filter (fun c => is_new_reply c || is_send c)
        = [] := fun attrs =>
    filter_open_windows_calls tk attrs w.next _
      (fun c hc => (construction_not_reply c hc).2.2)
  cases hp : parse argv with
  | error text =>
    have hm := message_parse_error cfg parse tk connection m w argv text hl hs hp
    have hc := message_calls_parse_error cfg parse tk connection m w argv text hl hs hp
    refine ⟨by rw [hm], by rw [hc]; rfl, by rw [hc]; rfl, ?_, ?_⟩
    · intro t ht
      cases ht
      refine ⟨by rw [hc]; rfl, by rw [hm], by rw [hc]; rfl⟩
    · intro attrs ha
      cases ha
  | ok attrs =>
    have hm := message_parse_ok cfg parse tk connection m w argv attrs hl hs hp
    have hc := message_calls_parse_ok cfg parse tk connection m w argv attrs hl hs hp
    refine ⟨by rw [hm], ?_, ?_, ?_, ?_⟩
    · rw [hc, List.countP_eq_length_filter]
      simp only [List.filter_append, hsend,
        filter_map_attr_free attrs is_send (fun _ => rfl)]
      rfl
    · rw [hc, List.countP_eq_length_filter]
      simp only [List.filter_append, hnew,
        filter_map_attr_free attrs is_new_reply (fun _ => rfl)]
      rfl
    · intro t ht
      cases ht
    · intro attrs2 ha
      cases ha
      refine ⟨?_, ?_, ?_, ?_, ?_⟩
      · rw [hc]
        simp only [List.filter_append, hboth,
          filter_map_attr_free attrs (fun c => is_new_reply c || is_send c) (fun _ => rfl)]
        rfl
      · rw [hm, open_windows_eq]
      · rw [hm]
        simp [window_handles_length]
      · rw [hc]
        simp only [List.countP_append, count_window_new_open_windows,
          List.countP_eq_length_filter _ (List.map _ _),
          filter_map_attr_free attrs is_window_new (fun _ => rfl)]
        rfl
      · refine ⟨attrs.map Call.terminal_window_attr_free ++ ([Call.g_list_free] ++
          [Call.dbus_message_new_method_return (w.next + handles_used attrs),
           Call.dbus_connection_send connection (w.next + handles_used attrs),
           Call.dbus_free_string_array argv,
           Call.dbus_message_unref (w.next + handles_used attrs)]), ?_, ?_⟩
        · rw [hc, calls_since_open_windows, List.append_assoc, List.append_assoc]
        · simp only [List.countP_append, List.countP_eq_length_filter _ (List.map _ _),
            filter_map_attr_free attrs is_window_new (fun _ => rfl)]
          rfl

theorem message_calls_append (cfg : Config) (parse : Parser) (tk : Toolkit)
    (connection : Handle) (m : DBusMessage) (w : World) :
    (terminal_app_message cfg parse tk connection m w).2.calls
      = w.calls ++ message_calls cfg parse tk connection m w := by
  unfold message_calls calls_since
  by_cases hl : dbus_message_is_method_call m cfg.TERMINAL_DBUS_INTERFACE
      cfg.TERMINAL_DBUS_METHOD_LAUNCH = true
  · by_cases ha : dbus_message_iter_init m = true
    · cases hs : dbus_message_iter_get_string_array m with
      | none =>
        rw [message_invalid_args cfg parse tk connection m w hl ha hs]
        simp
      | some argv =>
        cases hp : parse argv with
        | error text =>
          rw [message_parse_error cfg parse tk connection m w argv text hl hs hp]
          simp
        | ok attrs =>
          rw [message_parse_ok cfg parse tk connection m w argv attrs hl hs hp]
          simp
    · rw [message_no_args cfg parse tk connection m w hl (by simpa using ha)]
      simp
  · by_cases hd : dbus_message_is_signal m cfg.DBUS_INTERFACE_ORG_FREEDESKTOP_LOCAL
        "Disconnected" = true
    · simp [terminal_app_message, hl, hd, emit]
    · simp [terminal_app_message, hl, hd]

theorem quit_not_in_open_windows (tk : Toolkit) (attrs : List TerminalWindowAttr)
    (n : Handle) : (open_windows_calls tk n attrs).count Call.gtk_main_quit = 0 := by
  apply List.count_eq_zero_of_not_mem
  intro hin
  have := open_windows_calls_construction tk attrs n _ hin
  cases this

theorem count_map_attr_free (attrs : List TerminalWindowAttr) (c : Call)
    (hc : ∀ a, c ≠ Call.terminal_window_attr_free a) :
    (attrs.map Call.terminal_window_attr_free).count c = 0 := by
  apply List.count_eq_zero_of_not_mem
  intro hin
  obtain ⟨a, _, ha⟩ := List.mem_map.mp hin
  exact hc a ha.symm

theorem launch_requests_no_quit (cfg : Config) (parse : Parser) (tk : Toolkit)
    (connection : Handle) (m : DBusMessage) (w : World)
    (hl : dbus_message_is_method_call m cfg.TERMINAL_DBUS_INTERFACE
      cfg.TERMINAL_DBUS_METHOD_LAUNCH = true) :
    quits (terminal_app_message cfg parse tk connection m w).2 = quits w := by
  unfold quits
  rw [message_calls_append, List.count_append]
  suffices h : (message_calls cfg parse tk connection m w).count Call.gtk_main_quit = 0 by
    rw [h, Nat.add_zero]
  by_cases ha : dbus_message_iter_init m = true
  · cases hs : dbus_message_iter_get_string_array m with
    | none =>
      rw [message_calls_invalid_args cfg parse tk connection m w hl ha hs]
      rfl
    | some argv =>
      cases hp : parse argv with
      | error text =>
        rw [message_calls_parse_error cfg parse tk connection m w argv text hl hs hp]
        rfl
      | ok attrs =>
        rw [message_calls_parse_ok cfg parse tk connection m w argv attrs hl hs hp]
        simp only [List.count_append, quit_not_in_open_windows,
          count_map_attr_free attrs Call.gtk_main_quit (fun _ h => by cases h)]
        rfl
  · rw [message_calls, message_no_args cfg parse tk connection m w hl (by simpa using ha)]
    simp [calls_since]

theorem launch_not_disconnected (cfg : Config) (m : DBusMessage) :
    ¬ (dbus_message_is_method_call m cfg.TERMINAL_DBUS_INTERFACE
        cfg.TERMINAL_DBUS_METHOD_LAUNCH = true ∧
      dbus_message_is_signal m cfg.DBUS_INTERFACE_ORG_FREEDESKTOP_LOCAL
        "Disconnected" = true) := by
  rintro ⟨h1, h2⟩
  unfold dbus_message_is_method_call has_type_interface_member at h1
  unfold dbus_message_is_signal has_type_interface_member at h2
  simp only [Bool.and_eq_true, decide_eq_true_eq] at h1 h2
  rw [h1.1.1] at h2
  exact absurd h2.1.1 (by decide)

theorem launch_reply_counts (cfg : Config) (parse : Parser) (tk : Toolkit)
    (connection : Handle) (m : DBusMessage) (w : World)
    (hl : dbus_message_is_method_call m cfg.TERMINAL_DBUS_INTERFACE
      cfg.TERMINAL_DBUS_METHOD_LAUNCH = true)
    (ha : dbus_message_iter_init m = true) :
    (terminal_app_message cfg parse tk connection m w).1 = DBusHandlerResult.HANDLED ∧
    (message_calls cfg parse tk connection m w).countP is_send = 1 ∧
    (message_calls cfg parse tk connection m w).countP is_new_reply = 1 := by
  cases hs : dbus_message_iter_get_string_array m with
  | none =>
    rw [message_calls_invalid_args cfg parse tk connection m w hl ha hs,
      message_invalid_args cfg parse tk connection m w hl ha hs]
    exact ⟨rfl, rfl, rfl⟩
  | some argv =>
    cases hp : parse argv with
    | error text =>
      rw [message_calls_parse_error cfg parse tk connection m w argv text hl hs hp,
        message_parse_error cfg parse tk connection m w argv text hl hs hp]
      exact ⟨rfl, rfl, rfl⟩
    | ok attrs =>
      rw [message_calls_parse_ok cfg parse tk connection m w argv attrs hl hs hp,
        message_parse_ok cfg parse tk connection m w argv attrs hl hs hp]
      refine ⟨rfl, ?_, ?_⟩
      · rw [List.countP_eq_length_filter]
        simp only [List.filter_append,
          filter_open_windows_calls tk attrs w.next is_send
            (fun c hc => (construction_not_reply c hc).1),
          filter_map_attr_free attrs is_send (fun _ => rfl)]
        rfl
      · rw [List.countP_eq_length_filter]
        simp only [List.filter_append,
          filter_open_windows_calls tk attrs w.next is_new_reply
            (fun c hc => (construction_not_reply c hc).2.1),
          filter_map_attr_free attrs is_new_reply (fun _ => rfl)]
        rfl

theorem launch_error_summary (cfg : Config) (parse : Parser) (tk : Toolkit)
    (connection : Handle) (m : DBusMessage) (w : World) (argv : List String) (text : String)
    (hl : dbus_message_is_method_call m cfg.TERMINAL_DBUS_INTERFACE
      cfg.TERMINAL_DBUS_METHOD_LAUNCH = true)
    (hs : dbus_message_iter_get_string_array m = some argv)
    (hp : parse argv = Except.error text) :
    (message_calls cfg parse tk connection m w).filter
        (fun c => is_new_reply c || is_send c)
      = [Call.dbus_message_new_error w.next cfg.TERMINAL_DBUS_ERROR text,
         Call.dbus_connection_send connection w.next] ∧
    (terminal_app_message cfg parse tk connection m w).2.app = w.app ∧
    (message_calls cfg parse tk connection m w).countP is_window_new = 0 := by
  rw [message_calls_parse_error cfg parse tk connection m w argv text hl hs hp,
    message_parse_error cfg parse tk connection m w argv text hl hs hp]
  exact ⟨rfl, rfl, rfl⟩

theorem launch_ok_summary (cfg : Config) (parse : Parser) (tk : Toolkit)
    (connection : Handle) (m : DBusMessage) (w : World) (argv : List String)
    (attrs : List TerminalWindowAttr)
    (hl : dbus_message_is_method_call m cfg.TERMINAL_DBUS_INTERFACE
      cfg.TERMINAL_DBUS_METHOD_LAUNCH = true)
    (hs : dbus_message_iter_get_string_array m = some argv)
    (hp : parse argv = Except.ok attrs) :
    (message_calls cfg parse tk connection m w).filter
        (fun c => is_new_reply c || is_send c)
      = [Call.dbus_message_new_method_return (w.next + handles_used attrs),
         Call.dbus_connection_send connection (w.next + handles_used attrs)] ∧
    (terminal_app_message cfg parse tk connection m w).2.app
      = (open_windows tk attrs w).app ∧
    (terminal_app_message cfg parse tk connection m w).2.app.windows.length
      = w.app.windows.length + attrs.length ∧
    (message_calls cfg parse tk connection m w).countP is_window_new = attrs.length := by
  have hm := message_parse_ok cfg parse tk connection m w argv attrs hl hs hp
  have hc := message_calls_parse_ok cfg parse tk connection m w argv attrs hl hs hp
  refine ⟨?_, ?_, ?_, ?_⟩
  · rw [hc]
    simp only [List.filter_append,
      filter_open_windows_calls tk attrs w.next (fun c => is_new_reply c || is_send c)
        (fun c h => (construction_not_reply c h).2.2),
      filter_map_attr_free attrs (fun c => is_new_reply c || is_send c) (fun _ => rfl)]
    rfl
  · rw [hm, open_windows_eq]
  · rw [hm]
    simp [window_handles_length]
  · rw [hc]
    simp only [List.countP_append, count_window_new_open_windows,
      List.countP_eq_length_filter _ (List.map _ _),
      filter_map_attr_free attrs is_window_new (fun _ => rfl)]
    rfl

/-- Claim C9, as the code has it: `terminal_app_message` puts every message in exactly one of
three cases, and a Launch method call is never also a Disconnected signal.  A Launch method
call that carries at least one argument is processed as a launch: HANDLED, exactly one reply
created and sent, no quit requested; the reply is the error "Invalid arguments" when the
first argument is not a string array, the error with the parser's text when parsing the
array fails (the application unchanged in both), and a method return after one window per
parsed attribute has been opened when parsing succeeds.  A Launch method call without any
argument is declined: NOT_YET_HANDLED, world unchanged.  A Disconnected signal on the local
interface prints the notice, requests `gtk_main_quit` once, leaves the application object
alone, sends no reply and returns HANDLED.  Any other message returns NOT_YET_HANDLED with
the world unchanged. -/
theorem message_cases (cfg : Config) (parse : Parser) (tk : Toolkit)
    (connection : Handle) (m : DBusMessage) (w : World) :
    ¬ (dbus_message_is_method_call m cfg.TERMINAL_DBUS_INTERFACE
          cfg.TERMINAL_DBUS_METHOD_LAUNCH = true ∧
        dbus_message_is_signal m cfg.DBUS_INTERFACE_ORG_FREEDESKTOP_LOCAL
          "Disconnected" = true) ∧
    (dbus_message_is_method_call m cfg.TERMINAL_DBUS_INTERFACE
        cfg.TERMINAL_DBUS_METHOD_LAUNCH = true →
      dbus_message_iter_init m = true →
      processed_as_launch cfg parse tk connection m w ∧
      (message_calls cfg parse tk connection m w).countP is_new_reply = 1 ∧
      quits (terminal_app_message cfg parse tk connection m w).2 = quits w ∧
      (dbus_message_iter_get_string_array m = none →
        message_calls cfg parse tk connection m w
          = [Call.dbus_message_new_error w.next cfg.TERMINAL_DBUS_ERROR "Invalid arguments",
             Call.dbus_connection_send connection w.next,
             Call.dbus_message_unref w.next] ∧
        (terminal_app_message cfg parse tk connection m w).2.app = w.app) ∧
      (∀ argv text, dbus_message_iter_get_string_array m = some argv →
        parse argv = Except.error text →
        (message_calls cfg parse tk connection m w).filter
            (fun c => is_new_reply c || is_send c)
          = [Call.dbus_message_new_error w.next cfg.TERMINAL_DBUS_ERROR text,
             Call.dbus_connection_send connection w.next] ∧
        (terminal_app_message cfg parse tk connection m w).2.app = w.app ∧
        (message_calls cfg parse tk connection m w).countP is_window_new = 0) ∧
      (∀ argv attrs, dbus_message_iter_get_string_array m = some argv →
        parse argv = Except.ok attrs →
        (message_calls cfg parse tk connection m w).filter
            (fun c => is_new_reply c || is_send c)
          = [Call.dbus_message_new_method_return (w.next + handles_used attrs),
             Call.dbus_connection_send connection (w.next + handles_used attrs)] ∧
        (terminal_app_message cfg parse tk connection m w).2.app
          = (open_windows tk attrs w).app ∧
        (terminal_app_message cfg parse tk connection m w).2.app.windows.length
          = w.app.windows.length + attrs.length ∧
        (message_calls cfg parse tk connection m w).countP is_window_new
          = attrs.length)) ∧
    (dbus_message_is_method_call m cfg.TERMINAL_DBUS_INTERFACE
        cfg.TERMINAL_DBUS_METHOD_LAUNCH = true →
      dbus_message_iter_init m = false →
      terminal_app_message cfg parse tk connection m w
        = (DBusHandlerResult.NOT_YET_HANDLED, w) ∧
      message_calls cfg parse tk connection m w = []) ∧
    (dbus_message_is_method_call m cfg.TERMINAL_DBUS_INTERFACE
        cfg.TERMINAL_DBUS_METHOD_LAUNCH = false →
      dbus_message_is_signal m cfg.DBUS_INTERFACE_ORG_FREEDESKTOP_LOCAL
        "Disconnected" = true →
      terminal_app_message cfg parse tk connection m w
        = (DBusHandlerResult.HANDLED,
            { w with calls := w.calls ++
                [Call.g_printerr "D-BUS message bus disconnected, exiting...\n",
                 Call.gtk_main_quit] }) ∧
      quits (terminal_app_message cfg parse tk connection m w).2 = quits w + 1 ∧
      (terminal_app_message cfg parse tk connection m w).2.app = w.app ∧
      (message_calls cfg parse tk connection m w).countP is_window_new = 0 ∧
      (message_calls cfg parse tk connection m w).countP is_send = 0) ∧
    (dbus_message_is_method_call m cfg.TERMINAL_DBUS_INTERFACE
        cfg.TERMINAL_DBUS_METHOD_LAUNCH = false →
      dbus_message_is_signal m cfg.DBUS_INTERFACE_ORG_FREEDESKTOP_LOCAL
        "Disconnected" = false →
      terminal_app_message cfg parse tk connection m w
        = (DBusHandlerResult.NOT_YET_HANDLED, w) ∧
      message_calls cfg parse tk connection m w = []) := by
  refine ⟨launch_not_disconnected cfg m, ?_, ?_, ?_, ?_⟩
  · intro hl ha
    obtain ⟨h1, h2, h3⟩ := launch_reply_counts cfg parse tk connection m w hl ha
    refine ⟨⟨h1, h2⟩, h3, launch_requests_no_quit cfg parse tk connection m w hl, ?_, ?_, ?_⟩
    · intro hs
      refine ⟨message_calls_invalid_args cfg parse tk connection m w hl ha hs, ?_⟩
      rw [message_invalid_args cfg parse tk connection m w hl ha hs]
    · intro argv text hs hp
      exact launch_error_summary cfg parse tk connection m w argv text hl hs hp
    · intro argv attrs hs hp
      exact launch_ok_summary cfg parse tk connection m w argv attrs hl hs hp
  · intro hl ha
    have hm := message_no_args cfg parse tk connection m w hl ha
    refine ⟨hm, ?_⟩
    rw [message_calls, hm]
    simp [calls_since]
  · intro hl hd
    have hm : terminal_app_message cfg parse tk connection m w
        = (DBusHandlerResult.HANDLED,
            { w with calls := w.calls ++
                [Call.g_printerr "D-BUS message bus disconnected, exiting...\n",
                 Call.gtk_main_quit] }) := by
      simp [terminal_app_message, hl, hd, emit]
    have hc : message_calls cfg parse tk connection m w
        = [Call.g_printerr "D-BUS message bus disconnected, exiting...\n",
           Call.gtk_main_quit] := by
      rw [message_calls, hm]
      simp [calls_since]
    refine ⟨hm, ?_, by rw [hm], by rw [hc]; rfl, by rw [hc]; rfl⟩
    rw [hm]
    simp [quits, List.count_append, List.count_cons]
  · intro hl hd
    have hm : terminal_app_message cfg parse tk connection m w
        = (DBusHandlerResult.NOT_YET_HANDLED, w) := by
      simp [terminal_app_message, hl, hd]
    refine ⟨hm, ?_⟩
    rw [message_calls, hm]
    simp [calls_since]

/-- Claim C9 as stated fails at a Launch method call without arguments: it is a Launch
method call, the parser would accept its (empty) argument vector, yet it is not processed as
a launch.  The handler returns NOT_YET_HANDLED with nothing sent and nothing changed, which
is also its answer to a method call that is not Launch. -/
theorem launch_without_arguments_not_processed :
    dbus_message_is_method_call launch_without_arguments
        sample_config.TERMINAL_DBUS_INTERFACE sample_config.TERMINAL_DBUS_METHOD_LAUNCH
      = true ∧
    (∃ attrs, parse_accepting [] = Except.ok attrs) ∧
    ¬ processed_as_launch sample_config parse_accepting strict_toolkit 1
        launch_without_arguments empty_world ∧
    terminal_app_message sample_config parse_accepting strict_toolkit 1
        launch_without_arguments empty_world
      = (DBusHandlerResult.NOT_YET_HANDLED, empty_world) ∧
    terminal_app_message sample_config parse_accepting strict_toolkit 1
        launch_without_arguments empty_world
      = terminal_app_message sample_config parse_accepting strict_toolkit 1
          unrelated_call empty_world := by
  have hm : terminal_app_message sample_config parse_accepting strict_toolkit 1
        launch_without_arguments empty_world
      = (DBusHandlerResult.NOT_YET_HANDLED, empty_world) :=
    message_no_args sample_config parse_accepting strict_toolkit 1 launch_without_arguments
      empty_world (by decide) rfl
  have hu : terminal_app_message sample_config parse_accepting strict_toolkit 1
        unrelated_call empty_world
      = (DBusHandlerResult.NOT_YET_HANDLED, empty_world) := by
    have h1 : dbus_message_is_method_call unrelated_call
        sample_config.TERMINAL_DBUS_INTERFACE sample_config.TERMINAL_DBUS_METHOD_LAUNCH
        = false := by decide
    have h2 : dbus_message_is_signal unrelated_call
        sample_config.DBUS_INTERFACE_ORG_FREEDESKTOP_LOCAL "Disconnected" = false := by
      decide
    simp [terminal_app_message, h1, h2]
  refine ⟨by decide, ⟨_, rfl⟩, ?_, hm, by rw [hm, hu]⟩
  intro h
  have h1 := h.1
  rw [hm] at h1
  cases h1

/-- Claim C10, evaluated where it fails: a Launch call whose argument vector the parser
rejects.  The handler creates one reply (handle 0), and its calls release that reply twice,
once inside the failure branch and once after freeing the argument array; the array itself
is freed once. -/
theorem parse_failure_unrefs_reply_twice :
    message_calls sample_config parse_rejecting strict_toolkit 1 sample_launch empty_world
      = [Call.dbus_message_new_error 0 "org.xfce.Terminal.Error" "Unknown option",
         Call.dbus_connection_send 1 0,
         Call.dbus_message_unref 0,
         Call.dbus_free_string_array ["Terminal", "--bogus"],
         Call.dbus_message_unref 0] ∧
    (message_calls sample_config parse_rejecting strict_toolkit 1 sample_launch
      empty_world).count (Call.dbus_message_unref 0) = 2 := by
  have h := message_calls_parse_error sample_config parse_rejecting strict_toolkit 1
    sample_launch empty_world ["Terminal", "--bogus"] "Unknown option" (by decide) rfl rfl
  rw [h]
  exact ⟨rfl, by decide⟩

theorem count_not_construction (tk : Toolkit) (attrs : List TerminalWindowAttr)
    (n : Handle) (c : Call) (hc : is_construction c = false) :
    (open_windows_calls tk n attrs).count c = 0 := by
  apply List.count_eq_zero_of_not_mem
  intro hin
  rw [open_windows_calls_construction tk attrs n c hin] at hc
  cases hc

theorem reply_release_counts (cfg : Config) (parse : Parser) (tk : Toolkit)
    (connection : Handle) (m : DBusMessage) (w : World)
    (hl : dbus_message_is_method_call m cfg.TERMINAL_DBUS_INTERFACE
      cfg.TERMINAL_DBUS_METHOD_LAUNCH = true) :
    (dbus_message_iter_init m = true → dbus_message_iter_get_string_array m = none →
      (message_calls cfg parse tk connection m w).count (Call.dbus_message_unref w.next)
        = 1) ∧
    (∀ argv text, dbus_message_iter_get_string_array m = some argv →
      parse argv = Except.error text →
      (message_calls cfg parse tk connection m w).count (Call.dbus_message_unref w.next)
        = 2 ∧
      (message_calls cfg parse tk connection m w).count (Call.dbus_free_string_array argv)
        = 1) ∧
    (∀ argv attrs, dbus_message_iter_get_string_array m = some argv →
      parse argv = Except.ok attrs →
      (message_calls cfg parse tk connection m w).count
          (Call.dbus_message_unref (w.next + handles_used attrs)) = 1 ∧
      (message_calls cfg parse tk connection m w).count (Call.dbus_free_string_array argv)
        = 1) := by
  refine ⟨?_, ?_, ?_⟩
  · intro ha hs
    rw [message_calls_invalid_args cfg parse tk connection m w hl ha hs]
    simp [List.count_cons]
  · intro argv text hs hp
    rw [message_calls_parse_error cfg parse tk connection m w argv text hl hs hp]
    simp [List.count_cons]
  · intro argv attrs hs hp
    rw [message_calls_parse_ok cfg parse tk connection m w argv attrs hl hs hp]
    have h1 := count_not_construction tk attrs w.next
      (Call.dbus_message_unref (w.next + handles_used attrs)) rfl
    have h2 := count_not_construction tk attrs w.next (Call.dbus_free_string_array argv) rfl
    have h3 := count_map_attr_free attrs
      (Call.dbus_message_unref (w.next + handles_used attrs)) (fun _ h => by cases h)
    have h4 := count_map_attr_free attrs (Call.dbus_free_string_array argv)
      (fun _ h => by cases h)
    simp only [List.count_append, h1, h2, h3, h4]
    simp [List.count_cons]

/-- Claim C8: for every world and working directory, `terminal_app_new_window` on the
attribute that `terminal_window_attr_new` creates returns normally, having opened exactly
one window from the fresh attribute whose single tab carries the working directory and no
command or title.  The new window is appended to the registry, whose earlier entries and
the server flag are unchanged; one widget is created and, when the directory is present,
it is the only override applied. -/
theorem new_window_opens_single_tab (tk : Toolkit) (menubar borders toolbars : Bool)
    (window : Handle) (working_directory : Option String) (w : World) :
    ∃ w1, terminal_app_new_window tk (terminal_window_attr_new menubar borders toolbars)
        window working_directory w = some w1 ∧
      w1.app.windows = w.app.windows ++ [w.next] ∧
      w1.app.server_running = w.app.server_running ∧
      w1 = emit (Call.terminal_window_attr_free
              { terminal_window_attr_new menubar borders toolbars with
                tabs := [{ command := none, directory := working_directory,
                           title := none }] })
            (terminal_app_open_window tk
              { terminal_window_attr_new menubar borders toolbars with
                tabs := [{ command := none, directory := working_directory,
                           title := none }] }
              (emit Call.terminal_window_attr_new w)) ∧
      w1.calls = w.calls ++
        ([Call.terminal_window_attr_new,
          Call.terminal_window_new menubar borders toolbars w.next,
          Call.g_signal_connect w.next "destroy",
          Call.g_signal_connect w.next "new-window",
          Call.terminal_widget_new (w.next + 1)] ++
         option_calls working_directory
           (Call.terminal_widget_set_working_directory (w.next + 1)) ++
         [Call.terminal_window_add w.next (w.next + 1),
          Call.gtk_widget_show w.next,
          Call.terminal_widget_launch_child (w.next + 1),
          Call.terminal_window_attr_free
            { terminal_window_attr_new menubar borders toolbars with
              tabs := [{ command := none, directory := working_directory,
                         title := none }] }]) ∧
      (calls_since w w1).countP is_window_new = 1 ∧
      (calls_since w w1).countP is_widget_new = 1 := by
  refine ⟨_, rfl, ?_, ?_, rfl, ?_, ?_, ?_⟩
  · rw [open_window_eq]; rfl
  · rw [open_window_eq]; rfl
  · rw [open_window_eq]
    cases working_directory <;>
      simp [emit, open_window_calls, window_header, option_calls, terminal_window_attr_new,
        tab_block, override_calls, geometry_calls, List.enumFrom_cons]
  · rw [open_window_eq]
    cases working_directory <;>
      simp [emit, calls_since, open_window_calls, window_header, option_calls,
        terminal_window_attr_new, tab_block, override_calls, geometry_calls,
        List.enumFrom_cons, is_window_new, List.countP_cons]
  · rw [open_window_eq]
    cases working_directory <;>
      simp [emit, calls_since, open_window_calls, window_header, option_calls,
        terminal_window_attr_new, tab_block, override_calls, geometry_calls,
        List.enumFrom_cons, is_widget_new, List.countP_cons]

/-! ## Starting the service and invoking a running instance -/

/-- What `terminal_app_start_server` does, in terms of the values its two tests look at:
success exactly when the server was already marked running, or the connection is obtained,
acquiring the service name returns non-zero and registering the object path returns a
non-negative value.  When already running it returns without consulting the bus and without
changing the world.  Whenever it returns failure an error is stored and the flag stays
unset; the flag is set after the call exactly when it returned success; the registry is
never touched. -/
theorem start_server_outcome (cfg : Config) (bus : Bus) (w : World) :
    ((terminal_app_start_server cfg bus w).ok = true ↔
      (w.app.server_running = true ∨
        ∃ connection, bus.exo_dbus_bus_connection = some connection ∧
          (bus.dbus_bus_acquire_service connection cfg.TERMINAL_DBUS_SERVICE 0).1 ≠ 0 ∧
          0 ≤ bus.dbus_connection_register_object_path connection cfg.TERMINAL_DBUS_PATH)) ∧
    (w.app.server_running = true →
      ∀ other : Bus, terminal_app_start_server cfg other w
        = { ok := true, error := none, world := w }) ∧
    (w.app.server_running = false → bus.exo_dbus_bus_connection = none →
      (terminal_app_start_server cfg bus w).ok = false ∧
      (terminal_app_start_server cfg bus w).error
        = some "Unable to connect to D-BUS message daemon" ∧
      (terminal_app_start_server cfg bus w).world.app.server_running = false) ∧
    (∀ connection, w.app.server_running = false →
      bus.exo_dbus_bus_connection = some connection →
      (bus.dbus_bus_acquire_service connection cfg.TERMINAL_DBUS_SERVICE 0).1 = 0 →
      (terminal_app_start_server cfg bus w).ok = false ∧
      (terminal_app_start_server cfg bus w).error
        = some ("Unable to acquire service " ++ cfg.TERMINAL_DBUS_SERVICE ++ ": " ++
            (bus.dbus_bus_acquire_service connection cfg.TERMINAL_DBUS_SERVICE 0).2) ∧
      (terminal_app_start_server cfg bus w).world.app.server_running = false) ∧
    (∀ connection, w.app.server_running = false →
      bus.exo_dbus_bus_connection = some connection →
      (bus.dbus_bus_acquire_service connection cfg.TERMINAL_DBUS_SERVICE 0).1 ≠ 0 →
      bus.dbus_connection_register_object_path connection cfg.TERMINAL_DBUS_PATH < 0 →
      (terminal_app_start_server cfg bus w).ok = false ∧
      (terminal_app_start_server cfg bus w).error
        = some ("Unable to register object " ++ cfg.TERMINAL_DBUS_PATH ++ "\n") ∧
      (terminal_app_start_server cfg bus w).world.app.server_running = false) ∧
    ((terminal_app_start_server cfg bus w).ok = false →
      (terminal_app_start_server cfg bus w).error.isSome = true ∧
      (terminal_app_start_server cfg bus w).world.app.server_running = false) ∧
    ((terminal_app_start_server cfg bus w).world.app.server_running = true ↔
      (terminal_app_start_server cfg bus w).ok = true) ∧
    (terminal_app_start_server cfg bus w).world.app.windows = w.app.windows := by
  unfold terminal_app_start_server
  cases hr : w.app.server_running with
  | true => simp [hr]
  | false =>
    cases hc : bus.exo_dbus_bus_connection with
    | none => simp [hr]
    | some connection =>
      by_cases ha : (bus.dbus_bus_acquire_service connection cfg.TERMINAL_DBUS_SERVICE 0).1
          = 0
      · simp [ha, emit, hr]
      · by_cases hg : bus.dbus_connection_register_object_path connection
            cfg.TERMINAL_DBUS_PATH < 0
        · simp [ha, hg, hr]
        · simp [ha, hg, Int.not_lt.mp hg]

/-- Claim C6, evaluated where it fails.  When the bus library refuses the service name it
returns -1, which `!dbus_bus_acquire_service (...)` does not catch; when it fails to register
the object path it returns `FALSE`, which `... < 0` does not catch.  In both situations
`terminal_app_start_server` returns success, stores no error and sets the server-running
flag, where the claim has a failure return with an error stored and the flag unset. -/
theorem start_server_misses_bus_failures :
    terminal_app_start_server sample_config bus_name_refused empty_world
      = { ok := true, error := none,
          world := { empty_world with app := { windows := [], server_running := true } } } ∧
    terminal_app_start_server sample_config bus_path_refused empty_world
      = { ok := true, error := none,
          world := { empty_world with app := { windows := [], server_running := true } } } := by
  constructor <;> decide

/-- Claim C4: `terminal_app_try_invoke` returns success exactly when a connection is
obtained, the blocking send of the Launch call with a wait of 2000 ms yields a reply, and
the reply is not an error named `TERMINAL_DBUS_ERROR`.  The call it sends is a Launch method
call with auto-activation off that carries the argument vector as one string array.
Without a connection, without a reply, and on such an error reply it returns failure. -/
theorem try_invoke_success_iff (cfg : Config) (bus : Bus) (argv : List String) :
    ((terminal_app_try_invoke cfg bus argv).ok = true ↔
      ∃ connection reply, bus.exo_dbus_bus_connection = some connection ∧
        bus.dbus_connection_send_with_reply_and_block connection (launch_call cfg argv) 2000
          = Except.ok reply ∧
        dbus_message_is_error reply cfg.TERMINAL_DBUS_ERROR = false) ∧
    (launch_call cfg argv).auto_activation = false ∧
    (launch_call cfg argv).args = [DBusArg.string_array argv] ∧
    dbus_message_is_method_call (launch_call cfg argv) cfg.TERMINAL_DBUS_INTERFACE
      cfg.TERMINAL_DBUS_METHOD_LAUNCH = true ∧
    (∀ connection, bus.exo_dbus_bus_connection = some connection →
      (terminal_app_try_invoke cfg bus argv).calls.head?
        = some (Call.dbus_connection_send_with_reply_and_block connection
            (launch_call cfg argv) 2000)) ∧
    (bus.exo_dbus_bus_connection = none →
      (terminal_app_try_invoke cfg bus argv).ok = false) ∧
    (∀ connection text, bus.exo_dbus_bus_connection = some connection →
      bus.dbus_connection_send_with_reply_and_block connection (launch_call cfg argv) 2000
        = Except.error text →
      (terminal_app_try_invoke cfg bus argv).ok = false) ∧
    (∀ connection reply, bus.exo_dbus_bus_connection = some connection →
      bus.dbus_connection_send_with_reply_and_block connection (launch_call cfg argv) 2000
        = Except.ok reply →
      dbus_message_is_error reply cfg.TERMINAL_DBUS_ERROR = true →
      (terminal_app_try_invoke cfg bus argv).ok = false) := by
  have hcall : dbus_message_is_method_call (launch_call cfg argv)
      cfg.TERMINAL_DBUS_INTERFACE cfg.TERMINAL_DBUS_METHOD_LAUNCH = true := by
    simp [dbus_message_is_method_call, has_type_interface_member, launch_call]
  refine ⟨?_, rfl, rfl, hcall, ?_, ?_, ?_, ?_⟩
  · unfold terminal_app_try_invoke
    cases hc : bus.exo_dbus_bus_connection with
    | none => simp
    | some connection =>
      cases hs : bus.dbus_connection_send_with_reply_and_block connection
          (launch_call cfg argv) 2000 with
      | error text => simp [hs]
      | ok reply =>
        by_cases he : dbus_message_is_error reply cfg.TERMINAL_DBUS_ERROR = true
        · simp [hs, he]
        · simp [hs, he]
  · intro connection hc
    unfold terminal_app_try_invoke
    simp only [hc]
    cases hs : bus.dbus_connection_send_with_reply_and_block connection
        (launch_call cfg argv) 2000 with
    | error text => simp
    | ok reply =>
      by_cases he : dbus_message_is_error reply cfg.TERMINAL_DBUS_ERROR = true <;> simp [he]
  · intro hc
    simp [terminal_app_try_invoke, hc]
  · intro connection text hc hs
    simp [terminal_app_try_invoke, hc, hs]
  · intro connection reply hc hs he
    simp [terminal_app_try_invoke, hc, hs, he]

theorem failures_with_connection_report (cfg : Config) (bus : Bus) (argv : List String)
    (connection : Handle) (hc : bus.exo_dbus_bus_connection = some connection)
    (hf : (terminal_app_try_invoke cfg bus argv).ok = false) :
    (terminal_app_try_invoke cfg bus argv).error.isSome = true := by
  revert hf
  unfold terminal_app_try_invoke
  simp only [hc]
  cases hs : bus.dbus_connection_send_with_reply_and_block connection
      (launch_call cfg argv) 2000 with
  | error text => simp
  | ok reply =>
    by_cases he : dbus_message_is_error reply cfg.TERMINAL_DBUS_ERROR = true <;> simp [he]

/-- Claim C5, evaluated where it fails: with no message bus daemon, so that no connection
can be obtained, `terminal_app_try_invoke` returns failure and stores no error, while
`terminal_app_start_server` in the same situation returns failure with a message. -/
theorem try_invoke_without_connection_reports_nothing :
    terminal_app_try_invoke sample_config bus_without_daemon ["Terminal"]
      = { ok := false, error := none, calls := [] } ∧
    (terminal_app_start_server sample_config bus_without_daemon empty_world).ok = false ∧
    (terminal_app_start_server sample_config bus_without_daemon empty_world).error
      = some "Unable to connect to D-BUS message daemon" :=
  ⟨rfl, rfl, rfl⟩

/-! ## The theorems at concrete inputs -/

/-- Claim C2 at a parser that yields two attributes, the first with two tabs: from the empty
registry the registry ends with the two window handles 0 and 3. -/
theorem process_registers_one_window_per_attr_witness :
    ∃ w1, terminal_app_process parse_accepting strict_toolkit ["Terminal"] empty_world
        = Except.ok w1 ∧
      w1.app.windows = [0, 3] ∧ w1.app.windows.length = 2 := by
  obtain ⟨w1, hs, h1, _, _, _, _, _, _, h8⟩ :=
    (process_registers_one_window_per_attr parse_accepting strict_toolkit ["Terminal"]
      [two_tab_attr, { two_tab_attr with tabs := [], geometry := none }] empty_world rfl).2
  refine ⟨w1, h1, ?_, h8 rfl⟩
  have h2 := process_ok_eq parse_accepting strict_toolkit ["Terminal"]
    [two_tab_attr, { two_tab_attr with tabs := [], geometry := none }] empty_world rfl
  rw [h1] at h2
  cases h2
  rfl

/-- Claim C3 at a Launch call whose arguments the parser rejects: handled, one reply. -/
theorem launch_is_answered_once_witness :
    (terminal_app_message sample_config parse_rejecting strict_toolkit 1 sample_launch
      empty_world).1 = DBusHandlerResult.HANDLED ∧
    (message_calls sample_config parse_rejecting strict_toolkit 1 sample_launch
      empty_world).countP is_send = 1 ∧
    (message_calls sample_config parse_rejecting strict_toolkit 1 sample_launch
      empty_world).filter (fun c => is_new_reply c || is_send c)
        = [Call.dbus_message_new_error 0 "org.xfce.Terminal.Error" "Unknown option",
           Call.dbus_connection_send 1 0] :=
  ⟨(launch_is_answered_once sample_config parse_rejecting strict_toolkit 1 sample_launch
      empty_world ["Terminal", "--bogus"] [] (by decide) rfl).1,
   (launch_is_answered_once sample_config parse_rejecting strict_toolkit 1 sample_launch
      empty_world ["Terminal", "--bogus"] [] (by decide) rfl).2.1,
   ((launch_is_answered_once sample_config parse_rejecting strict_toolkit 1 sample_launch
      empty_world ["Terminal", "--bogus"] [] (by decide) rfl).2.2.2.1
        "Unknown option" rfl).1⟩

/-- Claim C4 at a bus whose running instance answers with a method return (success), and at
a session without a bus daemon (failure). -/
theorem try_invoke_success_iff_witness :
    (terminal_app_try_invoke sample_config working_bus ["Terminal"]).ok = true ∧
    (terminal_app_try_invoke sample_config bus_without_daemon ["Terminal"]).ok = false :=
  ⟨(try_invoke_success_iff sample_config working_bus ["Terminal"]).1.mpr
      ⟨1, _, rfl, rfl, by decide⟩,
   (try_invoke_success_iff sample_config bus_without_daemon ["Terminal"]).2.2.2.2.2.1 rfl⟩

/-- Claim C7 at a window attribute with two tabs and a geometry string the toolkit rejects:
two widgets, two launches, one show. -/
theorem open_window_builds_tabs_witness :
    (opened_calls strict_toolkit two_tab_attr empty_world).countP is_widget_new = 2 ∧
    (opened_calls strict_toolkit two_tab_attr empty_world).countP is_launch = 2 ∧
    (opened_calls strict_toolkit two_tab_attr empty_world).count (Call.gtk_widget_show 0)
      = 1 ∧
    (terminal_app_open_window strict_toolkit two_tab_attr empty_world).app.windows = [0] :=
  ⟨(open_window_builds_tabs strict_toolkit two_tab_attr empty_world).2.2.1,
   (open_window_builds_tabs strict_toolkit two_tab_attr empty_world).2.2.2.2.1,
   ((open_window_builds_tabs strict_toolkit two_tab_attr empty_world).2.2.2.2.2.2.2.1
      _ _ rfl).1,
   (open_window_builds_tabs strict_toolkit two_tab_attr empty_world).2.1⟩

/-- Claim C9, as the code has it, at three messages: a Launch call whose arguments parse to
two windows (processed as a launch, both windows registered), a Launch call without
arguments (declined), and the Disconnected signal (handled, one quit). -/
theorem message_cases_witness :
    (processed_as_launch sample_config parse_accepting strict_toolkit 1 sample_launch
        empty_world ∧
      (terminal_app_message sample_config parse_accepting strict_toolkit 1 sample_launch
        empty_world).2.app.windows.length = 0 + 2) ∧
    terminal_app_message sample_config parse_accepting strict_toolkit 1
        launch_without_arguments empty_world
      = (DBusHandlerResult.NOT_YET_HANDLED, empty_world) ∧
    quits (terminal_app_message sample_config parse_rejecting strict_toolkit 1
      sample_disconnected empty_world).2 = 0 + 1 :=
  ⟨⟨((message_cases sample_config parse_accepting strict_toolkit 1 sample_launch
        empty_world).2.1 (by decide) rfl).1,
    (((message_cases sample_config parse_accepting strict_toolkit 1 sample_launch
        empty_world).2.1 (by decide) rfl).2.2.2.2.2
          ["Terminal", "--bogus"] _ rfl rfl).2.2.1⟩,
   ((message_cases sample_config parse_accepting strict_toolkit 1 launch_without_arguments
      empty_world).2.2.1 (by decide) rfl).1,
   ((message_cases sample_config parse_rejecting strict_toolkit 1 sample_disconnected
      empty_world).2.2.2.1 (by decide) (by decide)).2.1⟩

/-- The full log of opening the two-tab window when the toolkit rejects the geometry. -/
theorem open_window_sample_log :
    (terminal_app_open_window strict_toolkit two_tab_attr empty_world).calls
      = [Call.terminal_window_new true true false 0,
         Call.g_signal_connect 0 "destroy",
         Call.g_signal_connect 0 "new-window",
         Call.terminal_widget_new 1,
         Call.terminal_widget_set_working_directory 1 "/tmp",
         Call.terminal_window_add 0 1,
         Call.gtk_window_parse_geometry 0 "80x",
         Call.g_printerr "Invalid geometry string \"80x\"\n",
         Call.gtk_widget_show 0,
         Call.terminal_widget_launch_child 1,
         Call.terminal_widget_new 2,
         Call.terminal_widget_set_custom_command 2 ["top"],
         Call.terminal_widget_set_custom_title 2 "top",
         Call.terminal_window_add 0 2,
         Call.terminal_widget_launch_child 2] := by
  rfl

end TerminalApp
